import Mathlib

/-!
Verification of the simulation and control kernel of a digital-twin
manufacturing line.

The development shallowly embeds the Python sources:
  * `backend/simulation/machines/base_machine.py`  — machine FSM framework
  * `backend/simulation/machines/simple.py`        — SimpleMachine
  * `backend/simulation/machines/thermal.py`       — ThermalMachine
  * `backend/simulation/machines/inspection.py`    — InspectionMachine
  * `backend/simulation/physics/furnace_physics.py`— FurnacePhysics
  * `backend/simulation/physics/lpdc_physics.py`   — LPDCPhysics
  * `backend/simulation/physics/cnc_physics.py`    — CNCPhysics
  * `backend/simulation/orchestrator.py`           — ProductionOrchestrator
  * `backend/simulation/engine.py`                 — SimulationEngine
  * `backend/simulation/factory.py`                — build_factory configuration

Python floats are modelled as exact rationals (reals for the LPDC model,
whose fill law uses a square root).  Python's process-global `random.random()`
is modelled as an explicit stream of draws (`Rng`): each call to the global
module consumes the next value of the stream.  Machine `_emit_event` calls go
to the event/flow subsystem, which never feeds back into machines, the
orchestrator or the engine tags, and is therefore not part of the state
needed by the claims below.
-/

/-- FSM states of `base_machine.MachineState` (simplified ISA-88). -/
inductive MachineState where
  | IDLE
  | RUNNING
  | STOPPED
  | FAULTED
  deriving DecidableEq

/-- Common fields of `base_machine.BaseMachine`; `dev` holds the
device-specific fields of the concrete subclass. -/
structure BaseMachine (δ : Type) where
  state : MachineState
  enabled : Bool
  fault_code : ℕ
  processed_count : ℕ
  dev : δ

/-- The abstract methods / optional hooks of `BaseMachine` that a concrete
machine provides.  In the repository no machine's hook touches the FSM fields
(`state`, `enabled`, `fault_code`), so the hooks act on the device fields;
`_execute_running_logic` (which may also bump `processed_count`) is passed
separately to `tick`, since `InspectionMachine`'s running logic additionally
consumes random draws and is defined on its own. -/
structure MachineOps (δ : Type) where
  preStartChecks : δ → Bool
  detectFault : δ → Bool
  getFaultCode : δ → ℕ
  onStart : δ → δ := id
  onStop : δ → δ := id
  onReset : δ → δ := id
  onSafeStop : δ → δ := id

namespace BaseMachine

/-- `BaseMachine.handle_start_command`: IDLE → RUNNING, gated by `enabled`
(fault 101) and `_pre_start_checks` (fault 102).  Returns the updated machine
and the boolean result. -/
def handle_start_command (ops : MachineOps δ) (m : BaseMachine δ) :
    BaseMachine δ × Bool :=
  if m.state ≠ MachineState.IDLE then (m, false)
  else if ¬m.enabled then
    ({ m with fault_code := 101, state := MachineState.FAULTED }, false)
  else if ¬ops.preStartChecks m.dev then
    ({ m with fault_code := 102, state := MachineState.FAULTED }, false)
  else
    ({ m with state := MachineState.RUNNING, dev := ops.onStart m.dev }, true)

/-- `BaseMachine.handle_stop_command`: RUNNING → STOPPED. -/
def handle_stop_command (ops : MachineOps δ) (m : BaseMachine δ) :
    BaseMachine δ × Bool :=
  if m.state = MachineState.RUNNING then
    ({ m with state := MachineState.STOPPED, dev := ops.onStop m.dev }, true)
  else (m, false)

/-- `BaseMachine.handle_reset_command`: STOPPED/FAULTED → IDLE, clearing the
fault code. -/
def handle_reset_command (ops : MachineOps δ) (m : BaseMachine δ) :
    BaseMachine δ × Bool :=
  if m.state = MachineState.STOPPED ∨ m.state = MachineState.FAULTED then
    ({ m with fault_code := 0, state := MachineState.IDLE,
              dev := ops.onReset m.dev }, true)
  else (m, false)

/-- `BaseMachine.force_safe_state`: RUNNING → STOPPED, then the safe-stop
hook.  (SimpleMachine, ThermalMachine and InspectionMachine each override
this method entirely; their overrides are defined with the machine.) -/
def force_safe_state (ops : MachineOps δ) (m : BaseMachine δ) : BaseMachine δ :=
  let m := if m.state = MachineState.RUNNING then
    { m with state := MachineState.STOPPED } else m
  { m with dev := ops.onSafeStop m.dev }

/-- `BaseMachine.set_command`: edge-triggered dispatch; falsy values return
immediately. -/
def set_command (ops : MachineOps δ) (cmd_name : String) (value : Bool)
    (m : BaseMachine δ) : BaseMachine δ :=
  if ¬value then m
  else if cmd_name = "start" then (handle_start_command ops m).1
  else if cmd_name = "stop" then (handle_stop_command ops m).1
  else if cmd_name = "reset" then (handle_reset_command ops m).1
  else m

/-- `BaseMachine.tick`: when RUNNING, first fault detection (transition to
FAULTED and return), otherwise the device running logic.  `execLogic`
receives and returns `(processed_count, dev)`. -/
def tick (ops : MachineOps δ) (execLogic : ℚ → ℕ × δ → ℕ × δ) (dt : ℚ)
    (m : BaseMachine δ) : BaseMachine δ :=
  if m.state = MachineState.RUNNING ∧ ops.detectFault m.dev then
    { m with fault_code := ops.getFaultCode m.dev,
             state := MachineState.FAULTED }
  else if m.state = MachineState.RUNNING then
    let pd := execLogic dt (m.processed_count, m.dev)
    { m with processed_count := pd.1, dev := pd.2 }
  else m

end BaseMachine

/-- The `role` strings of `simple.SimpleMachine` ("generic", "casting",
"machining", "buffer"). -/
inductive Role where
  | generic
  | casting
  | machining
  | buffer
  deriving DecidableEq

/-- Device-specific fields of `simple.SimpleMachine`. -/
structure SimpleDev where
  cycle_time : ℚ
  role : Role
  has_pour : Bool
  has_trigger : Bool
  capacity : ℕ
  cmd_trigger : Bool
  cmd_pour_request : Bool
  progress : ℚ
  current_item : Option String
  queue_in : List String
  queue_out : List String
  pressure_psi : ℚ
  spindle_rpm : ℚ
  part_count : ℕ
  deriving DecidableEq

/-- Steps 2–3 of `SimpleMachine._execute_running_logic`: advance `progress`
and, when it reaches 100, move the current item to `queue_out`. -/
def simpleProcess (dt : ℚ) (pc : ℕ) (d : SimpleDev) : ℕ × SimpleDev :=
  let d := { d with progress := d.progress + dt / d.cycle_time * 100 }
  if d.progress ≥ 100 then
    let d := { d with queue_out := d.queue_out ++ d.current_item.toList,
                      current_item := none, progress := 0 }
    let d := if d.role = Role.buffer then
      { d with part_count := d.queue_out.length } else d
    (pc + 1, d)
  else (pc, d)

/-- `SimpleMachine._execute_running_logic` (role physics, load with the CNC
trigger gate and the casting pour gate, process, finish). -/
def simpleExec (dt : ℚ) : ℕ × SimpleDev → ℕ × SimpleDev := fun pd =>
  let pc := pd.1
  let d := pd.2
  let d := match d.role with
    | Role.casting =>
        { d with pressure_psi := if d.current_item.isSome then 45 else 0 }
    | Role.machining =>
        { d with spindle_rpm := if d.current_item.isSome then 3500 else 0 }
    | _ => d
  match d.current_item with
  | some _ => simpleProcess dt pc d
  | none =>
    match d.queue_in with
    | item :: rest =>
      if d.role = Role.machining ∧ d.has_trigger ∧ ¬d.cmd_trigger then
        (pc, { d with spindle_rpm := 1000 })
      else
        simpleProcess dt pc
          { d with current_item := some item, queue_in := rest, progress := 0,
                   cmd_trigger := false, cmd_pour_request := false }
    | [] =>
      if d.role = Role.casting then
        if d.has_pour ∧ ¬d.cmd_pour_request then
          (pc, { d with pressure_psi := 5 })
        else
          simpleProcess dt pc
            { d with current_item := some "MoltenMetal_Shot", progress := 0,
                     cmd_pour_request := false }
      else (pc, d)

/-- Hook record of `SimpleMachine`: trivial pre-start check, no faults,
no overridden start/stop/reset hooks. -/
def simpleOps : MachineOps SimpleDev where
  preStartChecks := fun _ => true
  detectFault := fun _ => false
  getFaultCode := fun _ => 0

namespace SimpleMachine

/-- `SimpleMachine.set_command`: the base dispatch, after which the value is
stored into the device edge flags `cmd_trigger` / `cmd_pour_request`
regardless of its truth. -/
def set_command (cmd_name : String) (value : Bool)
    (m : BaseMachine SimpleDev) : BaseMachine SimpleDev :=
  let m := BaseMachine.set_command simpleOps cmd_name value m
  if cmd_name = "trigger" then { m with dev.cmd_trigger := value }
  else if cmd_name = "pour_request" then { m with dev.cmd_pour_request := value }
  else m

/-- `SimpleMachine` inherits `BaseMachine.tick`. -/
def tick (dt : ℚ) (m : BaseMachine SimpleDev) : BaseMachine SimpleDev :=
  BaseMachine.tick simpleOps simpleExec dt m

/-- `SimpleMachine.force_safe_state` (full override: FSM state untouched). -/
def force_safe_state (m : BaseMachine SimpleDev) : BaseMachine SimpleDev :=
  { m with dev.progress := 0, dev.spindle_rpm := 0, dev.pressure_psi := 0 }

/-- Constructor defaults of `SimpleMachine.__init__` (FSM IDLE, disabled). -/
def init (cycle_time : ℚ) (role : Role) (has_pour has_trigger : Bool)
    (capacity : ℕ) : BaseMachine SimpleDev where
  state := MachineState.IDLE
  enabled := false
  fault_code := 0
  processed_count := 0
  dev := { cycle_time, role, has_pour, has_trigger, capacity,
           cmd_trigger := false, cmd_pour_request := false, progress := 0,
           current_item := none, queue_in := [], queue_out := [],
           pressure_psi := 0, spindle_rpm := 0, part_count := 0 }

end SimpleMachine

/-! ### Furnace thermal physics (`furnace_physics.py`) -/

/-- Physical parameters fixed in `FurnacePhysics.__init__`. -/
def furnace_T_ambient : ℚ := 20

def furnace_C_thermal : ℚ := 50000

def furnace_k_loss : ℚ := 80

def furnace_P_max : ℚ := 1500000

def furnace_max_ramp_rate : ℚ := 50

def furnace_T_max : ℚ := 900

def furnace_T_min : ℚ := 20

def furnace_T_alarm_threshold : ℚ := 98 / 100

/-- Mutable internal state of `FurnacePhysics`. -/
structure FurnaceState where
  T_current : ℚ
  heating_rate : ℚ
  power_in : ℚ
  power_loss : ℚ
  deriving DecidableEq

/-- `FurnacePhysics.__init__` / `reset()` state. -/
def furnaceInit : FurnaceState where
  T_current := furnace_T_ambient
  heating_rate := 0
  power_in := 0
  power_loss := 0

/-- `FurnacePhysics.step`: clamp the power input, first-order power balance,
ramp-rate clamp, Euler integration, and clamping into `[T_min, T_max]`. -/
def furnaceStep (dt : ℚ) (heater_power : ℚ) (s : FurnaceState) : FurnaceState :=
  let p := max 0 (min 100 heater_power)
  let power_in := p / 100 * furnace_P_max
  let power_loss := furnace_k_loss * (s.T_current - furnace_T_ambient)
  let dT := (power_in - power_loss) / furnace_C_thermal
  let dT := max (-furnace_max_ramp_rate) (min furnace_max_ramp_rate dT)
  let T := s.T_current + dT * dt
  let T := max furnace_T_min (min furnace_T_max T)
  { T_current := T, heating_rate := dT, power_in := power_in,
    power_loss := power_loss }

/-- The derived over-temperature alarm returned by `FurnacePhysics.step`. -/
def furnaceOverTempAlarm (s : FurnaceState) : Bool :=
  s.T_current ≥ furnace_T_max * furnace_T_alarm_threshold

/-! ### ThermalMachine (`thermal.py`) -/

/-- Device-specific fields of `thermal.ThermalMachine`. -/
structure ThermalDev where
  cycle_time : ℚ
  target_temp : ℚ
  is_cooling_tank : Bool
  phys : FurnaceState
  heater_power : ℚ
  progress : ℚ
  current_item : Option String
  queue_in : List String
  queue_out : List String
  deriving DecidableEq

/-- Cook/finish part of `ThermalMachine._execute_running_logic` (same shape as
`SimpleMachine`'s processing but for the thermal device fields). -/
def thermalProcess (dt : ℚ) (pc : ℕ) (d : ThermalDev) : ℕ × ThermalDev :=
  let d := { d with progress := d.progress + dt / d.cycle_time * 100 }
  if d.progress ≥ 100 then
    (pc + 1, { d with queue_out := d.queue_out ++ d.current_item.toList,
                      current_item := none, progress := 0 })
  else (pc, d)

/-- `ThermalMachine._execute_running_logic`: thermostat control of
`heater_power`, then material processing gated on the temperature window. -/
def thermalExec (dt : ℚ) : ℕ × ThermalDev → ℕ × ThermalDev := fun pd =>
  let pc := pd.1
  let d := pd.2
  let T := d.phys.T_current
  let d :=
    if d.is_cooling_tank then { d with heater_power := 0 }
    else if T < d.target_temp - 5 then { d with heater_power := 100 }
    else if T > d.target_temp + 5 then { d with heater_power := 0 }
    else { d with heater_power := 50 }
  let temp_ok := |T - d.target_temp| < 15
  if ¬temp_ok ∧ ¬d.is_cooling_tank then (pc, d)
  else
    match d.current_item with
    | some _ => thermalProcess dt pc d
    | none =>
      match d.queue_in with
      | [] => (pc, d)
      | item :: rest =>
        thermalProcess dt pc
          { d with current_item := some item, queue_in := rest, progress := 0 }

/-- Hook record of `ThermalMachine`: over-temperature fault when the physics
temperature exceeds 1200 °C, fault code 201. -/
def thermalOps : MachineOps ThermalDev where
  preStartChecks := fun _ => true
  detectFault := fun d => d.phys.T_current > 1200
  getFaultCode := fun _ => 201

namespace ThermalMachine

/-- `ThermalMachine.tick` (override): zero the heater power unless RUNNING,
always step the physics, then the base tick (fault detection + logic). -/
def tick (dt : ℚ) (m : BaseMachine ThermalDev) : BaseMachine ThermalDev :=
  let hp := if m.state ≠ MachineState.RUNNING then 0 else m.dev.heater_power
  let d := { m.dev with heater_power := hp, phys := furnaceStep dt hp m.dev.phys }
  BaseMachine.tick thermalOps thermalExec dt { m with dev := d }

/-- `ThermalMachine.force_safe_state` (full override: kill heater power). -/
def force_safe_state (m : BaseMachine ThermalDev) : BaseMachine ThermalDev :=
  { m with dev.heater_power := 0 }

/-- Constructor defaults of `ThermalMachine.__init__`. -/
def init (cycle_time target_temp : ℚ) (cooling : Bool) :
    BaseMachine ThermalDev where
  state := MachineState.IDLE
  enabled := false
  fault_code := 0
  processed_count := 0
  dev := { cycle_time, target_temp, is_cooling_tank := cooling,
           phys := furnaceInit, heater_power := 0, progress := 0,
           current_item := none, queue_in := [], queue_out := [] }

end ThermalMachine

/-! ### The process-global random module

`orchestrator._collect_outputs` and `InspectionMachine._execute_running_logic`
call the module-global `random.random()`, which no code in the repository
seeds.  It is modelled as a stream of values in `[0,1)` together with a
cursor; each call consumes the next value. -/

structure Rng where
  stream : ℕ → ℚ
  idx : ℕ

/-- One call of the global `random.random()`. -/
def Rng.draw (r : Rng) : ℚ × Rng :=
  (r.stream r.idx, { r with idx := r.idx + 1 })

/-! ### InspectionMachine (`inspection.py`) -/

/-- Device-specific fields of `inspection.InspectionMachine`. -/
structure InspectDev where
  cycle_time : ℚ
  fail_rate : ℚ
  reject_count : ℕ
  progress : ℚ
  current_item : Option String
  queue_in : List String
  queue_out : List String
  queue_reject : List String

/-- Process/decide part of `InspectionMachine._execute_running_logic`: on
completion draw from the global random module; below `fail_rate` the item is
captured in `queue_reject`, otherwise it passes to `queue_out`. -/
def inspectProcess (dt : ℚ) (pc : ℕ) (d : InspectDev) (r : Rng) :
    (ℕ × InspectDev) × Rng :=
  let d := { d with progress := d.progress + dt / d.cycle_time * 100 }
  if d.progress ≥ 100 then
    let qr := Rng.draw r
    let dests :=
      if qr.1 < d.fail_rate then
        (d.queue_out, d.queue_reject ++ d.current_item.toList,
         d.reject_count + 1)
      else
        (d.queue_out ++ d.current_item.toList, d.queue_reject, d.reject_count)
    ((pc + 1,
      { d with queue_out := dests.1, queue_reject := dests.2.1,
               reject_count := dests.2.2, current_item := none,
               progress := 0 }), qr.2)
  else ((pc, d), r)

/-- `InspectionMachine._execute_running_logic` (load then process/decide). -/
def inspectExec (dt : ℚ) (pc : ℕ) (d : InspectDev) (r : Rng) :
    (ℕ × InspectDev) × Rng :=
  match d.current_item with
  | some _ => inspectProcess dt pc d r
  | none =>
    match d.queue_in with
    | [] => ((pc, d), r)
    | item :: rest =>
      inspectProcess dt pc
        { d with current_item := some item, queue_in := rest, progress := 0 } r

/-- Hook record of `InspectionMachine`: no pre-start constraint, no faults. -/
def inspectOps : MachineOps InspectDev where
  preStartChecks := fun _ => true
  detectFault := fun _ => false
  getFaultCode := fun _ => 0

namespace InspectionMachine

/-- `InspectionMachine`'s inherited `BaseMachine.tick`, instantiated with its
hooks (`_detect_fault` is constantly false) and its draw-consuming running
logic. -/
def tick (dt : ℚ) (r : Rng) (m : BaseMachine InspectDev) :
    BaseMachine InspectDev × Rng :=
  if m.state = MachineState.RUNNING then
    let pdr := inspectExec dt m.processed_count m.dev r
    ({ m with processed_count := pdr.1.1, dev := pdr.1.2 }, pdr.2)
  else (m, r)

/-- `InspectionMachine.force_safe_state` (full override). -/
def force_safe_state (m : BaseMachine InspectDev) : BaseMachine InspectDev :=
  { m with dev.progress := 0 }

/-- Constructor defaults of `InspectionMachine.__init__`. -/
def init (cycle_time fail_rate : ℚ) : BaseMachine InspectDev where
  state := MachineState.IDLE
  enabled := false
  fault_code := 0
  processed_count := 0
  dev := { cycle_time, fail_rate, reject_count := 0, progress := 0,
           current_item := none, queue_in := [], queue_out := [],
           queue_reject := [] }

end InspectionMachine

/-! ### LPDC physics (`lpdc_physics.py`)

The fill law `dh/dt = k_fill * sqrt(P)` uses a real square root, so this
model is embedded over `ℝ` (hence its definitions are not executable; the
claims about it are branch properties that do not depend on the numeric
value of the root). -/

/-- States of the `LPDCPhysics` cycle state machine. -/
inductive LpdcPhase where
  | IDLE
  | FILLING
  | HOLDING
  | SOLIDIFYING
  | COMPLETE
  deriving DecidableEq

/-- Internal state of `LPDCPhysics`. -/
structure LpdcState where
  state : LpdcPhase
  timer : ℝ
  fill_height : ℝ
  solidification_progress : ℝ
  pressure : ℝ
  cycle_running : Bool
  last_to_solidify : Bool

/-- Inputs of `LPDCPhysics.step`. -/
structure LpdcInputs where
  pour_request : Bool
  pressure_setpoint : ℝ
  reset_request : Bool

/-- Parameters fixed in `LPDCPhysics.__init__`. -/
def lpdc_k_fill : ℝ := 2

def lpdc_hold_time : ℝ := 5

def lpdc_solidification_time : ℝ := 10

/-- `LPDCPhysics.__init__` / `reset()` state. -/
def lpdcInit : LpdcState where
  state := LpdcPhase.IDLE
  timer := 0
  fill_height := 0
  solidification_progress := 0
  pressure := 0
  cycle_running := false
  last_to_solidify := false

/-- `LPDCPhysics.step`: pressure clamp then the five-phase state machine
(IDLE, FILLING with `dh/dt = k_fill * sqrt(P)`, timed HOLDING, linear
SOLIDIFYING, COMPLETE until an explicit reset request). -/
noncomputable def lpdcStep (dt : ℝ) (i : LpdcInputs) (s : LpdcState) :
    LpdcState :=
  let ps := max 0 (min 100 i.pressure_setpoint)
  match s.state with
  | LpdcPhase.IDLE =>
    if i.pour_request then
      { s with state := LpdcPhase.FILLING, fill_height := 0,
               solidification_progress := 0, timer := 0,
               cycle_running := true, last_to_solidify := false }
    else
      { s with cycle_running := false, last_to_solidify := false }
  | LpdcPhase.FILLING =>
    let s := { s with cycle_running := true }
    let s :=
      if ps > 0 then
        { s with fill_height := s.fill_height + lpdc_k_fill * Real.sqrt ps * dt,
                 pressure := ps }
      else { s with pressure := 0 }
    if s.fill_height ≥ 100 then
      { s with fill_height := 100, state := LpdcPhase.HOLDING, timer := 0 }
    else s
  | LpdcPhase.HOLDING =>
    let s := { s with cycle_running := true, pressure := ps,
                      timer := s.timer + dt }
    if s.timer ≥ lpdc_hold_time then
      { s with state := LpdcPhase.SOLIDIFYING, timer := 0 }
    else s
  | LpdcPhase.SOLIDIFYING =>
    let s := { s with cycle_running := true, timer := s.timer + dt }
    let s := { s with
      solidification_progress :=
        min 100 (s.timer / lpdc_solidification_time * 100),
      pressure := 0 }
    if s.solidification_progress ≥ 100 then
      { s with last_to_solidify := true, state := LpdcPhase.COMPLETE }
    else s
  | LpdcPhase.COMPLETE =>
    let s := { s with cycle_running := false, pressure := 0 }
    if i.reset_request then
      { s with state := LpdcPhase.IDLE, fill_height := 0,
               solidification_progress := 0, last_to_solidify := false }
    else s

/-- The successor in the documented LPDC cycle
IDLE → FILLING → HOLDING → SOLIDIFYING → COMPLETE → IDLE. -/
def lpdcNext : LpdcPhase → LpdcPhase
  | LpdcPhase.IDLE => LpdcPhase.FILLING
  | LpdcPhase.FILLING => LpdcPhase.HOLDING
  | LpdcPhase.HOLDING => LpdcPhase.SOLIDIFYING
  | LpdcPhase.SOLIDIFYING => LpdcPhase.COMPLETE
  | LpdcPhase.COMPLETE => LpdcPhase.IDLE

/-! ### CNC physics (`cnc_physics.py`) -/

/-- Internal state of `CNCPhysics` (`mode` keeps the Python strings). -/
structure CncState where
  mode : String
  progress : ℚ
  spindle_rpm : ℚ
  busy : Bool
  job_active : Bool
  deriving DecidableEq

/-- Inputs of `CNCPhysics.step`. -/
structure CncInputs where
  trigger : Bool
  mode : String
  reset_request : Bool
  deriving DecidableEq

/-- Parameters fixed in `CNCPhysics.__init__`. -/
def cnc_MRR_roughing : ℚ := 1000

def cnc_MRR_finishing : ℚ := 200

def cnc_volume_total : ℚ := 50000

def cnc_RPM_roughing : ℚ := 3000

def cnc_RPM_finishing : ℚ := 6000

/-- `CNCPhysics.__init__` / `reset()` state. -/
def cncInit : CncState where
  mode := "roughing"
  progress := 0
  spindle_rpm := 0
  busy := false
  job_active := false

/-- `CNCPhysics.step` trigger logic: start a new job only when not already
running AND progress is exactly 0 (prevents re-triggering mid-job); `mode`
is the already-validated mode. -/
def cncTrigger (trigger : Bool) (mode : String) (s : CncState) : CncState :=
  if trigger ∧ ¬s.job_active ∧ s.progress = 0 then
    { s with job_active := true, mode := mode, progress := 0, busy := true }
  else s

/-- `CNCPhysics.step` job execution: MRR-driven linear progress. -/
def cncAdvance (dt : ℚ) (s : CncState) : CncState :=
  if s.job_active ∧ s.progress < 100 then
    let mrr := if s.mode = "roughing" then cnc_MRR_roughing
               else cnc_MRR_finishing
    let rpm := if s.mode = "roughing" then cnc_RPM_roughing
               else cnc_RPM_finishing
    { s with progress := s.progress + mrr * dt / cnc_volume_total * 100,
             spindle_rpm := rpm, busy := true }
  else s

/-- `CNCPhysics.step` job completion: clamp progress to exactly 100, clear
`busy`, mark the job complete. -/
def cncComplete (s : CncState) : CncState :=
  if s.progress ≥ 100 then
    { s with progress := 100, spindle_rpm := 0, busy := false,
             job_active := false }
  else s

/-- `CNCPhysics.step` reset logic: explicit re-arming for the next cycle,
only when no job is active. -/
def cncReset (reset_request : Bool) (s : CncState) : CncState :=
  if reset_request ∧ ¬s.job_active then
    { s with progress := 0, spindle_rpm := 0, busy := false }
  else s

/-- `CNCPhysics.step`: mode validation, then the trigger, job-execution,
completion and reset steps in source order. -/
def cncStep (dt : ℚ) (i : CncInputs) (s : CncState) : CncState :=
  let mode := if i.mode ≠ "roughing" ∧ i.mode ≠ "finishing" then "roughing"
              else i.mode
  cncReset i.reset_request (cncComplete (cncAdvance dt (cncTrigger i.trigger mode s)))

/-! ### Production orchestrator (`orchestrator.py`)

The WIP dictionary (`WIP_KEYS`) and the KPI dictionary become records with
one field per key.  Counts are Python ints, modelled as `ℤ`. -/

/-- `ProductionOrchestrator.WIP_KEYS`. -/
structure Wip where
  ingots_kg : ℤ
  molten_metal_kg : ℤ
  degassed_metal_kg : ℤ
  cast_parts : ℤ
  heat_treated_parts : ℤ
  machined_parts : ℤ
  painted_parts : ℤ
  xray_passed : ℤ
  qc_passed : ℤ
  scrap_parts : ℤ
  deriving DecidableEq

/-- The orchestrator's session KPIs. -/
structure Kpis where
  total_ingots_consumed : ℤ
  total_wheels_produced : ℤ
  total_scrap : ℤ
  batches_completed : ℤ
  throughput_wheels_hr : ℚ
  yield_percent : ℚ
  deriving DecidableEq

/-- State owned by `ProductionOrchestrator`. -/
structure OrchState where
  wip : Wip
  batch_id : ℕ
  batch_start_time : ℚ
  session_start_time : ℚ
  last_sim_time : ℚ
  kpis : Kpis
  deriving DecidableEq

/-- `ProductionOrchestrator.INGOT_KG_PER_WHEEL`. -/
def INGOT_KG_PER_WHEEL : ℤ := 10

/-- `ProductionOrchestrator.BATCH_SIZE_KG`. -/
def BATCH_SIZE_KG : ℤ := 50

/-- `ProductionOrchestrator.__init__`: zero WIP except the initial ingot
batch, batch id 1, zero KPIs. -/
def orchInit : OrchState where
  wip := { ingots_kg := BATCH_SIZE_KG, molten_metal_kg := 0,
           degassed_metal_kg := 0, cast_parts := 0, heat_treated_parts := 0,
           machined_parts := 0, painted_parts := 0, xray_passed := 0,
           qc_passed := 0, scrap_parts := 0 }
  batch_id := 1
  batch_start_time := 0
  session_start_time := 0
  last_sim_time := 0
  kpis := { total_ingots_consumed := 0, total_wheels_produced := 0,
            total_scrap := 0, batches_completed := 0,
            throughput_wheels_hr := 0, yield_percent := 0 }

/-- `ProductionOrchestrator.start_session`. -/
def startSession (t : ℚ) (o : OrchState) : OrchState :=
  { o with session_start_time := t, batch_start_time := t }

/-! ### The simulation engine state (`engine.py` + `factory.py`)

`build_factory` creates fifteen machines with fixed ids; the engine state
has one field per machine (the `machines` list order, which is the tick
order, is the field order used in `tickAllMachines`).  `orch` is the lazily
created `ProductionOrchestrator`, and `rng` the modelled global random
module. -/

structure EngineState where
  time_step : ℚ
  sim_time : ℚ
  ticks : ℕ
  inbound : BaseMachine SimpleDev
  storage : BaseMachine SimpleDev
  furnace : BaseMachine ThermalDev
  degasser : BaseMachine SimpleDev
  cooling1 : BaseMachine ThermalDev
  lpdc : BaseMachine SimpleDev
  heat : BaseMachine ThermalDev
  cooling2 : BaseMachine ThermalDev
  cnc : BaseMachine SimpleDev
  inspect : BaseMachine InspectDev
  pretreat : BaseMachine SimpleDev
  paint1 : BaseMachine SimpleDev
  paint2 : BaseMachine SimpleDev
  pack : BaseMachine SimpleDev
  outbound : BaseMachine SimpleDev
  orch : Option OrchState
  rng : Rng

/-- The pre-filled inbound queue of `build_factory`. -/
def inboundInitQueue : List String :=
  (List.range 100).map (fun i => "RawMaterial-" ++ toString i)

/-- `build_factory(plc_ref)`: the machine configuration of the factory, with
the engine's fixed 0.2 s timestep. -/
def initEngine (r : Rng) : EngineState where
  time_step := 2 / 10
  sim_time := 0
  ticks := 0
  inbound :=
    let m := SimpleMachine.init 2 Role.generic false false 100
    { m with dev.queue_in := inboundInitQueue }
  storage := SimpleMachine.init 5 Role.buffer false false 50
  furnace := ThermalMachine.init 10 750 false
  degasser := SimpleMachine.init 8 Role.generic false false 100
  cooling1 := ThermalMachine.init 5 25 true
  lpdc := SimpleMachine.init 15 Role.casting true false 100
  heat := ThermalMachine.init 12 500 false
  cooling2 := ThermalMachine.init 5 25 true
  cnc := SimpleMachine.init 10 Role.machining false true 100
  inspect := InspectionMachine.init 6 (1 / 10)
  pretreat := SimpleMachine.init 5 Role.generic false false 100
  paint1 := SimpleMachine.init 8 Role.generic false false 100
  paint2 := SimpleMachine.init 8 Role.generic false false 100
  pack := SimpleMachine.init 4 Role.generic false false 100
  outbound := SimpleMachine.init 2 Role.generic false false 100
  orch := none
  rng := r

/-- `ProductionOrchestrator._is_idle`: no in-flight item and empty input
queue (stated for the simple machines). -/
def isIdleS (m : BaseMachine SimpleDev) : Prop :=
  m.dev.current_item = none ∧ m.dev.queue_in = []

instance (m : BaseMachine SimpleDev) : Decidable (isIdleS m) := by
  unfold isIdleS; infer_instance

/-- `_is_idle` for the thermal machines. -/
def isIdleT (m : BaseMachine ThermalDev) : Prop :=
  m.dev.current_item = none ∧ m.dev.queue_in = []

instance (m : BaseMachine ThermalDev) : Decidable (isIdleT m) := by
  unfold isIdleT; infer_instance

/-- `_is_idle` for the inspection machine. -/
def isIdleI (m : BaseMachine InspectDev) : Prop :=
  m.dev.current_item = none ∧ m.dev.queue_in = []

instance (m : BaseMachine InspectDev) : Decidable (isIdleI m) := by
  unfold isIdleI; infer_instance

/-- The X-ray gate loop of `_collect_outputs` step 7: one global draw per
popped item; below 0.03 the part goes to scrap (and the scrap KPI), else to
`xray_passed`.  Only the three affected counters and the random cursor are
threaded. -/
def inspectGate (items : List String) (scrap xray total_scrap : ℤ) (r : Rng) :
    (ℤ × ℤ × ℤ) × Rng :=
  match items with
  | [] => ((scrap, xray, total_scrap), r)
  | _ :: rest =>
    let qr := Rng.draw r
    if qr.1 < 3 / 100 then
      inspectGate rest (scrap + 1) xray (total_scrap + 1) qr.2
    else
      inspectGate rest scrap (xray + 1) total_scrap qr.2

/-- The QC/packing gate loop of `_collect_outputs` step 8 (reject
probability 0.01, passes go to `qc_passed`). -/
def packGate (items : List String) (scrap qc total_scrap : ℤ) (r : Rng) :
    (ℤ × ℤ × ℤ) × Rng :=
  match items with
  | [] => ((scrap, qc, total_scrap), r)
  | _ :: rest =>
    let qr := Rng.draw r
    if qr.1 < 1 / 100 then
      packGate rest (scrap + 1) qc (total_scrap + 1) qr.2
    else
      packGate rest scrap (qc + 1) total_scrap qr.2

/-- `_collect_outputs` steps 1–6: drain the output queues of furnace,
degasser, LPDC, heat treatment, CNC and paint booth 1 and convert units
(+10 kg per melt/degas batch, 10 kg → 1 part at the LPDC, 1:1 downstream). -/
def collectOutputsA (os : OrchState × EngineState) : OrchState × EngineState :=
  let o := os.1
  let s := os.2
  let o := { o with wip.molten_metal_kg := o.wip.molten_metal_kg +
    (if s.furnace.dev.queue_out.length > 0 then 10 else 0) }
  let s := { s with furnace.dev.queue_out := [] }
  let o := { o with wip.degassed_metal_kg := o.wip.degassed_metal_kg +
    (if s.degasser.dev.queue_out.length > 0 then 10 else 0) }
  let s := { s with degasser.dev.queue_out := [] }
  let o := { o with wip.cast_parts := o.wip.cast_parts +
    (if s.lpdc.dev.queue_out.length > 0 then 1 else 0) }
  let s := { s with lpdc.dev.queue_out := [] }
  let o := { o with wip.heat_treated_parts := o.wip.heat_treated_parts +
    (if s.heat.dev.queue_out.length > 0 then 1 else 0) }
  let s := { s with heat.dev.queue_out := [] }
  let o := { o with wip.machined_parts := o.wip.machined_parts +
    (if s.cnc.dev.queue_out.length > 0 then 1 else 0) }
  let s := { s with cnc.dev.queue_out := [] }
  let o := { o with wip.painted_parts := o.wip.painted_parts +
    (if s.paint1.dev.queue_out.length > 0 then 1 else 0) }
  let s := { s with paint1.dev.queue_out := [] }
  (o, s)

/-- `_collect_outputs` steps 7–9: the seeded-by-nothing random gates at
X-ray and packing, the drain of the inspection machine's internal reject
queue into scrap, and the outbound drain. -/
def collectOutputsB (os : OrchState × EngineState) : OrchState × EngineState :=
  let o := os.1
  let s := os.2
  let items := s.inspect.dev.queue_out
  let s := { s with inspect.dev.queue_out := [] }
  let g := inspectGate items o.wip.scrap_parts o.wip.xray_passed
    o.kpis.total_scrap s.rng
  let o := { o with wip.scrap_parts := g.1.1, wip.xray_passed := g.1.2.1,
                    kpis.total_scrap := g.1.2.2 }
  let s := { s with rng := g.2 }
  let rejects := s.inspect.dev.queue_reject
  let s := { s with inspect.dev.queue_reject := [] }
  let o := { o with
    wip.scrap_parts := o.wip.scrap_parts +
      (if rejects.length > 0 then (rejects.length : ℤ) else 0),
    kpis.total_scrap := o.kpis.total_scrap +
      (if rejects.length > 0 then (rejects.length : ℤ) else 0) }
  let items2 := s.pack.dev.queue_out
  let s := { s with pack.dev.queue_out := [] }
  let g2 := packGate items2 o.wip.scrap_parts o.wip.qc_passed
    o.kpis.total_scrap s.rng
  let o := { o with wip.scrap_parts := g2.1.1, wip.qc_passed := g2.1.2.1,
                    kpis.total_scrap := g2.1.2.2 }
  let s := { s with rng := g2.2 }
  let s := { s with outbound.dev.queue_out := [] }
  (o, s)

/-- `ProductionOrchestrator._collect_outputs`. -/
def collectOutputs (os : OrchState × EngineState) : OrchState × EngineState :=
  collectOutputsB (collectOutputsA os)

/-- `_process_low_material_flow` stage 1: feed the furnace from the ingot
stock, gated on furnace idleness and the degassed-metal bottleneck guard
(`BUFFER_LIMIT_KG = 50`); consuming 10 kg counts into the ingots-consumed
KPI.  `_start_machine` appends the item to the machine input queue; the
furnace (a `ThermalMachine`) has no `role`, so no edge command is sent. -/
def flowFeedFurnace (os : OrchState × EngineState) : OrchState × EngineState :=
  let o := os.1
  let s := os.2
  let feed := o.wip.ingots_kg ≥ 10 ∧ isIdleT s.furnace ∧
    o.wip.degassed_metal_kg < 50
  let o := { o with
    wip.ingots_kg := if feed then o.wip.ingots_kg - 10 else o.wip.ingots_kg,
    kpis.total_ingots_consumed := if feed then
      o.kpis.total_ingots_consumed + 10 else o.kpis.total_ingots_consumed }
  let s := { s with furnace.dev.queue_in := if feed then
    s.furnace.dev.queue_in ++ ["IngotBatch"] else s.furnace.dev.queue_in }
  (o, s)

/-- `_process_low_material_flow` stage 2: feed the degasser from the molten
metal buffer. -/
def flowFeedDegasser (os : OrchState × EngineState) : OrchState × EngineState :=
  let o := os.1
  let s := os.2
  let feed := o.wip.molten_metal_kg ≥ 10 ∧ isIdleS s.degasser
  let o := { o with wip.molten_metal_kg := if feed then
    o.wip.molten_metal_kg - 10 else o.wip.molten_metal_kg }
  let s := { s with degasser.dev.queue_in := if feed then
    s.degasser.dev.queue_in ++ ["MoltenBatch"] else s.degasser.dev.queue_in }
  (o, s)

/-- `_process_low_material_flow` stage 3: feed the LPDC from the degassed
metal buffer; its `casting` role receives the `pour_request` edge command. -/
def flowFeedLpdc (os : OrchState × EngineState) : OrchState × EngineState :=
  let o := os.1
  let s := os.2
  let feed := o.wip.degassed_metal_kg ≥ 10 ∧ isIdleS s.lpdc
  let o := { o with wip.degassed_metal_kg := if feed then
    o.wip.degassed_metal_kg - 10 else o.wip.degassed_metal_kg }
  let mlp := { s.lpdc with dev.queue_in := s.lpdc.dev.queue_in ++ ["DegassedMetal"] }
  let s := { s with lpdc := if feed then
    SimpleMachine.set_command "pour_request" true mlp else s.lpdc }
  (o, s)

/-- `_process_low_material_flow` stage 4: feed heat treatment from the cast
parts buffer. -/
def flowFeedHeat (os : OrchState × EngineState) : OrchState × EngineState :=
  let o := os.1
  let s := os.2
  let feed := o.wip.cast_parts ≥ 1 ∧ isIdleT s.heat
  let o := { o with wip.cast_parts := if feed then
    o.wip.cast_parts - 1 else o.wip.cast_parts }
  let s := { s with heat.dev.queue_in := if feed then
    s.heat.dev.queue_in ++ ["CastPart"] else s.heat.dev.queue_in }
  (o, s)

/-- `_process_low_material_flow` stage 5: feed the CNC from the heat-treated
buffer, with the `trigger` edge command; otherwise the watchdog re-issues the
trigger when input is queued but no item is in flight (missed-trigger
recovery). -/
def flowFeedCnc (os : OrchState × EngineState) : OrchState × EngineState :=
  let o := os.1
  let s := os.2
  let feed := o.wip.heat_treated_parts ≥ 1 ∧ isIdleS s.cnc
  let o := { o with wip.heat_treated_parts := if feed then
    o.wip.heat_treated_parts - 1 else o.wip.heat_treated_parts }
  let mcnc := { s.cnc with dev.queue_in := s.cnc.dev.queue_in ++ ["HTPart"] }
  let s := { s with cnc := if feed then
    SimpleMachine.set_command "trigger" true mcnc
    else if s.cnc.dev.queue_in.length > 0 ∧ s.cnc.dev.current_item = none then
      SimpleMachine.set_command "trigger" true s.cnc
    else s.cnc }
  (o, s)

/-- `_process_low_material_flow` stage 6: feed paint booth 1 from the
machined parts buffer. -/
def flowFeedPaint (os : OrchState × EngineState) : OrchState × EngineState :=
  let o := os.1
  let s := os.2
  let feed := o.wip.machined_parts ≥ 1 ∧ isIdleS s.paint1
  let o := { o with wip.machined_parts := if feed then
    o.wip.machined_parts - 1 else o.wip.machined_parts }
  let s := { s with paint1.dev.queue_in := if feed then
    s.paint1.dev.queue_in ++ ["MachinedPart"] else s.paint1.dev.queue_in }
  (o, s)

/-- `_process_low_material_flow` stage 7: feed the X-ray inspection from the
painted parts buffer. -/
def flowFeedInspect (os : OrchState × EngineState) : OrchState × EngineState :=
  let o := os.1
  let s := os.2
  let feed := o.wip.painted_parts ≥ 1 ∧ isIdleI s.inspect
  let o := { o with wip.painted_parts := if feed then
    o.wip.painted_parts - 1 else o.wip.painted_parts }
  let s := { s with inspect.dev.queue_in := if feed then
    s.inspect.dev.queue_in ++ ["PaintedPart"] else s.inspect.dev.queue_in }
  (o, s)

/-- `_process_low_material_flow` stages 1-7, in source order. -/
def processFlowA (os : OrchState × EngineState) : OrchState × EngineState :=
  flowFeedInspect (flowFeedPaint (flowFeedCnc (flowFeedHeat (flowFeedLpdc
    (flowFeedDegasser (flowFeedFurnace os))))))

/-- `_process_low_material_flow` stages 8–9: feed packing from `xray_passed`
and outbound from `qc_passed`, counting the shipped wheel KPI on feeding
outbound. -/
def processFlowB (os : OrchState × EngineState) : OrchState × EngineState :=
  let o := os.1
  let s := os.2
  let feedPack := o.wip.xray_passed ≥ 1 ∧ isIdleS s.pack
  let o := { o with wip.xray_passed := if feedPack then
    o.wip.xray_passed - 1 else o.wip.xray_passed }
  let s := { s with pack.dev.queue_in := if feedPack then
    s.pack.dev.queue_in ++ ["XRayVerifiedPart"] else s.pack.dev.queue_in }
  let feedOut := o.wip.qc_passed ≥ 1 ∧ isIdleS s.outbound
  let o := { o with
    wip.qc_passed := if feedOut then o.wip.qc_passed - 1 else o.wip.qc_passed,
    kpis.total_wheels_produced := if feedOut then
      o.kpis.total_wheels_produced + 1 else o.kpis.total_wheels_produced }
  let s := { s with outbound.dev.queue_in := if feedOut then
    s.outbound.dev.queue_in ++ ["Wheel"] else s.outbound.dev.queue_in }
  (o, s)

/-- `ProductionOrchestrator._process_low_material_flow`. -/
def processLowMaterialFlow (os : OrchState × EngineState) :
    OrchState × EngineState :=
  processFlowB (processFlowA os)

/-- `ProductionOrchestrator._update_kpis`. -/
def updateKpis (current_time : ℚ) (o : OrchState) : OrchState :=
  let elapsed_hr := (current_time - o.session_start_time) / 3600
  let o := { o with kpis.throughput_wheels_hr := if elapsed_hr > 0 then
    (o.kpis.total_wheels_produced : ℚ) / elapsed_hr
    else o.kpis.throughput_wheels_hr }
  let total := o.kpis.total_wheels_produced + o.kpis.total_scrap
  { o with kpis.yield_percent := if total > 0 then
    (o.kpis.total_wheels_produced : ℚ) / (total : ℚ) * 100
    else o.kpis.yield_percent }

/-- `ProductionOrchestrator._check_batch_lifecycle`: when the ingot stock is
exhausted, count the completed batch, assign the next batch id and restock
`BATCH_SIZE_KG`; every other WIP entry is left as is. -/
def checkBatchLifecycle (o : OrchState) : OrchState :=
  if o.wip.ingots_kg ≤ 0 then
    { o with kpis.batches_completed := o.kpis.batches_completed + 1,
             batch_id := o.batch_id + 1,
             wip.ingots_kg := BATCH_SIZE_KG }
  else o

/-- `ProductionOrchestrator.tick` (dt itself is unused by the Python body). -/
def orchTick (current_time : ℚ) (os : OrchState × EngineState) :
    OrchState × EngineState :=
  let os := ({ os.1 with last_sim_time := current_time }, os.2)
  let os := collectOutputs os
  let os := processLowMaterialFlow os
  let os := (updateKpis current_time os.1, os.2)
  (checkBatchLifecycle os.1, os.2)

/-- `SimulationEngine.step` body after the power gate: tick every machine in
the `machines` list order with the fixed timestep (the inspection machine
threads the global random module). -/
def tickAllMachines (s : EngineState) : EngineState :=
  let dt := s.time_step
  let s := { s with inbound := SimpleMachine.tick dt s.inbound }
  let s := { s with storage := SimpleMachine.tick dt s.storage }
  let s := { s with furnace := ThermalMachine.tick dt s.furnace }
  let s := { s with degasser := SimpleMachine.tick dt s.degasser }
  let s := { s with cooling1 := ThermalMachine.tick dt s.cooling1 }
  let s := { s with lpdc := SimpleMachine.tick dt s.lpdc }
  let s := { s with heat := ThermalMachine.tick dt s.heat }
  let s := { s with cooling2 := ThermalMachine.tick dt s.cooling2 }
  let s := { s with cnc := SimpleMachine.tick dt s.cnc }
  let mi := InspectionMachine.tick dt s.rng s.inspect
  let s := { s with inspect := mi.1, rng := mi.2 }
  let s := { s with pretreat := SimpleMachine.tick dt s.pretreat }
  let s := { s with paint1 := SimpleMachine.tick dt s.paint1 }
  let s := { s with paint2 := SimpleMachine.tick dt s.paint2 }
  let s := { s with pack := SimpleMachine.tick dt s.pack }
  { s with outbound := SimpleMachine.tick dt s.outbound }

/-- The ungated body of `SimulationEngine.step`: orchestrator tick, machine
ticks, then the clock and tick counter advance.  (No post-step callbacks are
registered by `build_factory`.) -/
def engineStepRun (o : OrchState) (s : EngineState) : EngineState :=
  let os := orchTick s.sim_time (o, s)
  let s := tickAllMachines { os.2 with orch := some os.1 }
  { s with sim_time := s.sim_time + s.time_step, ticks := s.ticks + 1 }

/-- `SimulationEngine.step`.  `plcPresent` is whether a PLC reference was
supplied; `running` is the value of `plc_ref.is_running()` for this call.
When gated the call returns before anything (including the lazy orchestrator
construction) happens. -/
def engineStep (plcPresent running : Bool) (s : EngineState) : EngineState :=
  if plcPresent ∧ ¬running then s
  else
    match s.orch with
    | none => engineStepRun (startSession s.sim_time orchInit) s
    | some o => engineStepRun o s

/-! ### External writes

Between ticks the supervisory layers write to machines only through
`set_command` and through the `enabled` flag (`plc/engine.py` sets
`machine.enabled` directly when the PLC starts; tag writes reach
`Machine.set_command`). -/

/-- Names for the fifteen factory machines. -/
inductive MachineRef where
  | inbound | storage | furnace | degasser | cooling1 | lpdc | heat
  | cooling2 | cnc | inspect | pretreat | paint1 | paint2 | pack | outbound
  deriving DecidableEq

/-- One external write: an edge command or an `enabled` assignment. -/
inductive ExtWrite where
  | command (target : MachineRef) (name : String) (value : Bool)
  | setEnabled (target : MachineRef) (value : Bool)

/-- Apply one external write to the engine state.  Simple machines use
`SimpleMachine.set_command`; the thermal and inspection machines do not
override `set_command` and use the base dispatch. -/
def applyWrite (w : ExtWrite) (s : EngineState) : EngineState :=
  match w with
  | ExtWrite.command t name v =>
    match t with
    | MachineRef.inbound => { s with inbound := SimpleMachine.set_command name v s.inbound }
    | MachineRef.storage => { s with storage := SimpleMachine.set_command name v s.storage }
    | MachineRef.furnace => { s with furnace := BaseMachine.set_command thermalOps name v s.furnace }
    | MachineRef.degasser => { s with degasser := SimpleMachine.set_command name v s.degasser }
    | MachineRef.cooling1 => { s with cooling1 := BaseMachine.set_command thermalOps name v s.cooling1 }
    | MachineRef.lpdc => { s with lpdc := SimpleMachine.set_command name v s.lpdc }
    | MachineRef.heat => { s with heat := BaseMachine.set_command thermalOps name v s.heat }
    | MachineRef.cooling2 => { s with cooling2 := BaseMachine.set_command thermalOps name v s.cooling2 }
    | MachineRef.cnc => { s with cnc := SimpleMachine.set_command name v s.cnc }
    | MachineRef.inspect => { s with inspect := BaseMachine.set_command inspectOps name v s.inspect }
    | MachineRef.pretreat => { s with pretreat := SimpleMachine.set_command name v s.pretreat }
    | MachineRef.paint1 => { s with paint1 := SimpleMachine.set_command name v s.paint1 }
    | MachineRef.paint2 => { s with paint2 := SimpleMachine.set_command name v s.paint2 }
    | MachineRef.pack => { s with pack := SimpleMachine.set_command name v s.pack }
    | MachineRef.outbound => { s with outbound := SimpleMachine.set_command name v s.outbound }
  | ExtWrite.setEnabled t v =>
    match t with
    | MachineRef.inbound => { s with inbound.enabled := v }
    | MachineRef.storage => { s with storage.enabled := v }
    | MachineRef.furnace => { s with furnace.enabled := v }
    | MachineRef.degasser => { s with degasser.enabled := v }
    | MachineRef.cooling1 => { s with cooling1.enabled := v }
    | MachineRef.lpdc => { s with lpdc.enabled := v }
    | MachineRef.heat => { s with heat.enabled := v }
    | MachineRef.cooling2 => { s with cooling2.enabled := v }
    | MachineRef.cnc => { s with cnc.enabled := v }
    | MachineRef.inspect => { s with inspect.enabled := v }
    | MachineRef.pretreat => { s with pretreat.enabled := v }
    | MachineRef.paint1 => { s with paint1.enabled := v }
    | MachineRef.paint2 => { s with paint2.enabled := v }
    | MachineRef.pack => { s with pack.enabled := v }
    | MachineRef.outbound => { s with outbound.enabled := v }

/-- Apply a batch of external writes (in order) before a tick. -/
def applyWrites (ws : List ExtWrite) (s : EngineState) : EngineState :=
  ws.foldl (fun s w => applyWrite w s) s

/-- A run of the core: from the factory configuration with global random
stream `r`, before tick `n` apply the external writes `ws n`, then step with
the run predicate value `preds n`. -/
def runEngine (plcPresent : Bool) (ws : ℕ → List ExtWrite)
    (preds : ℕ → Bool) (r : Rng) : ℕ → EngineState
  | 0 => initEngine r
  | n + 1 =>
    engineStep plcPresent (preds n)
      (applyWrites (ws n) (runEngine plcPresent ws preds r n))

/-! ### The draw-independent view of the engine state

Everything in the engine state except (i) the global random module, (ii) the
destinations of the gate decisions (`scrap_parts`, `xray_passed`,
`qc_passed`, `total_scrap`, the derived `throughput`/`yield` KPIs and
`total_wheels_produced`), (iii) the inspection machine's outcome queues
(`queue_out`, `queue_reject`, `reject_count`), and (iv) the packing and
outbound machines (fed from `xray_passed`/`qc_passed`), is a function of the
configuration and command sequence alone.  The view records exactly that
draw-independent part. -/

/-- Draw-independent part of the inspection machine. -/
structure InspectView where
  state : MachineState
  enabled : Bool
  fault_code : ℕ
  processed_count : ℕ
  cycle_time : ℚ
  fail_rate : ℚ
  progress : ℚ
  current_item : Option String
  queue_in : List String

def inspectView (m : BaseMachine InspectDev) : InspectView :=
  ⟨m.state, m.enabled, m.fault_code, m.processed_count, m.dev.cycle_time,
   m.dev.fail_rate, m.dev.progress, m.dev.current_item, m.dev.queue_in⟩

/-- Draw-independent part of the orchestrator state. -/
structure OrchView where
  ingots_kg : ℤ
  molten_metal_kg : ℤ
  degassed_metal_kg : ℤ
  cast_parts : ℤ
  heat_treated_parts : ℤ
  machined_parts : ℤ
  painted_parts : ℤ
  total_ingots_consumed : ℤ
  batches_completed : ℤ
  batch_id : ℕ
  batch_start_time : ℚ
  session_start_time : ℚ
  last_sim_time : ℚ

def orchView (o : OrchState) : OrchView :=
  ⟨o.wip.ingots_kg, o.wip.molten_metal_kg, o.wip.degassed_metal_kg,
   o.wip.cast_parts, o.wip.heat_treated_parts, o.wip.machined_parts,
   o.wip.painted_parts, o.kpis.total_ingots_consumed,
   o.kpis.batches_completed, o.batch_id, o.batch_start_time,
   o.session_start_time, o.last_sim_time⟩

/-- Draw-independent part of the engine state. -/
structure EngineView where
  time_step : ℚ
  sim_time : ℚ
  ticks : ℕ
  inbound : BaseMachine SimpleDev
  storage : BaseMachine SimpleDev
  degasser : BaseMachine SimpleDev
  lpdc : BaseMachine SimpleDev
  cnc : BaseMachine SimpleDev
  pretreat : BaseMachine SimpleDev
  paint1 : BaseMachine SimpleDev
  paint2 : BaseMachine SimpleDev
  furnace : BaseMachine ThermalDev
  cooling1 : BaseMachine ThermalDev
  heat : BaseMachine ThermalDev
  cooling2 : BaseMachine ThermalDev
  inspectV : InspectView
  orchV : Option OrchView

def engineView (s : EngineState) : EngineView :=
  ⟨s.time_step, s.sim_time, s.ticks, s.inbound, s.storage, s.degasser,
   s.lpdc, s.cnc, s.pretreat, s.paint1, s.paint2, s.furnace, s.cooling1,
   s.heat, s.cooling2, inspectView s.inspect, s.orch.map orchView⟩

/-! ### Concrete states and reachability used by the claim theorems -/

/-- An all-zeros draw stream (every global `random.random()` call returns 0,
below both gate thresholds). -/
def cexRngA : Rng := ⟨fun _ => 0, 0⟩

/-- A constant one-half draw stream (every draw passes both gates). -/
def cexRngB : Rng := ⟨fun _ => 1 / 2, 0⟩

/-- The factory configuration with one part waiting in the inspection
machine's output queue (as after an inspection pass), and with the given
global random stream. -/
def cexState (r : Rng) : EngineState :=
  { initEngine r with inspect.dev.queue_out := ["PaintedPart"] }

/-- A CNC state mid-job (roughing, 40% progress). -/
def c9mid : CncState :=
  { mode := "roughing", progress := 40, spindle_rpm := 3000, busy := true,
    job_active := true }

/-- A CNC state with a completed job. -/
def c9done : CncState :=
  { mode := "roughing", progress := 100, spindle_rpm := 0, busy := false,
    job_active := false }

/-- An LPDC state mid-fill. -/
def c8fill : LpdcState :=
  { state := LpdcPhase.FILLING, timer := 0, fill_height := 40,
    solidification_progress := 0, pressure := 50, cycle_running := true,
    last_to_solidify := false }

/-- An LPDC state with a completed cycle. -/
def c8done : LpdcState :=
  { state := LpdcPhase.COMPLETE, timer := 0, fill_height := 100,
    solidification_progress := 100, pressure := 0, cycle_running := false,
    last_to_solidify := true }

/-- Engine states reachable in a run of the core: the factory configuration
(with any global random stream), closed under `SimulationEngine.step` (with
any power gating) and under external tag writes. -/
inductive EngineReach : EngineState → Prop
  | init (r : Rng) : EngineReach (initEngine r)
  | step (p b : Bool) {s : EngineState} :
      EngineReach s → EngineReach (engineStep p b s)
  | write (w : ExtWrite) {s : EngineState} :
      EngineReach s → EngineReach (applyWrite w s)

/-- The batch-accounting invariant of the orchestrator: the ingot stock is a
multiple of 10 kg within `[0, BATCH_SIZE_KG]`, and the consumed-ingots KPI
always equals 50 kg per completed batch plus what the current batch has fed
so far — so each batch consumes exactly `BATCH_SIZE_KG = 50` kg, i.e.
exactly five 10 kg melt feeds, before completing. -/
def OrchInv (o : OrchState) : Prop :=
  0 ≤ o.wip.ingots_kg ∧ o.wip.ingots_kg ≤ BATCH_SIZE_KG ∧
    (10 ∣ o.wip.ingots_kg) ∧
    o.kpis.total_ingots_consumed =
      BATCH_SIZE_KG * o.kpis.batches_completed +
        (BATCH_SIZE_KG - o.wip.ingots_kg)

/-- The orchestrator state with an exhausted ingot stock. -/
def c6o : OrchState :=
  { orchInit with wip.ingots_kg := 0 }

/-- A zero draw stream for witnesses. -/
def rngZero : Rng := ⟨fun _ => 0, 0⟩

/-- A faulted packing-line machine (code 101). -/
def c4m : BaseMachine SimpleDev :=
  let m := SimpleMachine.init 4 Role.generic false false 100
  { m with state := MachineState.FAULTED, fault_code := 101 }

/-- A faulted furnace. -/
def c4t : BaseMachine ThermalDev :=
  let m := ThermalMachine.init 10 750 false
  { m with state := MachineState.FAULTED, fault_code := 201 }

/-- A faulted inspection machine. -/
def c4i : BaseMachine InspectDev :=
  let m := InspectionMachine.init 6 (1 / 10)
  { m with state := MachineState.FAULTED, fault_code := 101 }

/-- A CNC-role machine whose trigger edge flag is set. -/
def c5m : BaseMachine SimpleDev :=
  let m := SimpleMachine.init 10 Role.machining false true 100
  { m with dev.cmd_trigger := true }

/-- A running thermal machine (the furnace configuration). -/
def c10m : BaseMachine ThermalDev :=
  let m := ThermalMachine.init 10 750 false
  { m with state := MachineState.RUNNING, enabled := true }

/-- The draw-independent part of the inspection machine evolves as a
function of itself under the base command dispatch. -/
theorem inspectView_set_command (name : String) (v : Bool)
    {m1 m2 : BaseMachine InspectDev} (h : inspectView m1 = inspectView m2) :
    inspectView (BaseMachine.set_command inspectOps name v m1) =
      inspectView (BaseMachine.set_command inspectOps name v m2) := by
  obtain ⟨st1, en1, fc1, pc1, ⟨ct1, fr1, rc1, pg1, ci1, qi1, qo1, qr1⟩⟩ := m1
  obtain ⟨st2, en2, fc2, pc2, ⟨ct2, fr2, rc2, pg2, ci2, qi2, qo2, qr2⟩⟩ := m2
  simp only [inspectView, InspectView.mk.injEq] at h
  obtain ⟨h1, h2, h3, h4, h5, h6, h7, h8, h9⟩ := h
  subst h1 h2 h3 h4 h5 h6 h7 h8 h9
  unfold BaseMachine.set_command BaseMachine.handle_start_command
    BaseMachine.handle_stop_command BaseMachine.handle_reset_command
  simp only [inspectOps]
  split_ifs <;> rfl

/-- The draw-independent part of the inspection machine evolves as a
function of itself under `tick`, whatever the random stream does. -/
theorem inspectView_tick (dt : ℚ) (r1 r2 : Rng)
    {m1 m2 : BaseMachine InspectDev} (h : inspectView m1 = inspectView m2) :
    inspectView (InspectionMachine.tick dt r1 m1).1 =
      inspectView (InspectionMachine.tick dt r2 m2).1 := by
  obtain ⟨st1, en1, fc1, pc1, ⟨ct1, fr1, rc1, pg1, ci1, qi1, qo1, qr1⟩⟩ := m1
  obtain ⟨st2, en2, fc2, pc2, ⟨ct2, fr2, rc2, pg2, ci2, qi2, qo2, qr2⟩⟩ := m2
  simp only [inspectView, InspectView.mk.injEq] at h
  obtain ⟨h1, h2, h3, h4, h5, h6, h7, h8, h9⟩ := h
  subst h1 h2 h3 h4 h5 h6 h7 h8 h9
  by_cases hrun : st1 = MachineState.RUNNING
  · rcases ci1 with _ | it
    · rcases qi1 with _ | ⟨it, rest⟩
      · simp only [InspectionMachine.tick, inspectExec, if_pos hrun]
        rfl
      · simp only [InspectionMachine.tick, inspectExec, inspectProcess,
          Rng.draw, if_pos hrun]
        by_cases hp : (0 : ℚ) + dt / ct1 * 100 ≥ 100 <;>
          simp only [hp, if_true, if_false, ite_true, ite_false,
            inspectView]
    · simp only [InspectionMachine.tick, inspectExec, inspectProcess,
        Rng.draw, if_pos hrun]
      by_cases hp : pg1 + dt / ct1 * 100 ≥ 100 <;>
        simp only [hp, if_true, if_false, ite_true, ite_false, inspectView]
  · simp only [InspectionMachine.tick, if_neg hrun]
    rfl

theorem inspectView_setEnabled (v : Bool) {m1 m2 : BaseMachine InspectDev}
    (h : inspectView m1 = inspectView m2) :
    inspectView { m1 with enabled := v } = inspectView { m2 with enabled := v } := by
  obtain ⟨st1, en1, fc1, pc1, ⟨ct1, fr1, rc1, pg1, ci1, qi1, qo1, qr1⟩⟩ := m1
  obtain ⟨st2, en2, fc2, pc2, ⟨ct2, fr2, rc2, pg2, ci2, qi2, qo2, qr2⟩⟩ := m2
  simp only [inspectView, InspectView.mk.injEq] at h
  obtain ⟨h1, h2, h3, h4, h5, h6, h7, h8, h9⟩ := h
  subst h1 h2 h3 h4 h5 h6 h7 h8 h9
  rfl

theorem engineView_applyWrite (w : ExtWrite) {s1 s2 : EngineState}
    (h : engineView s1 = engineView s2) :
    engineView (applyWrite w s1) = engineView (applyWrite w s2) := by
  simp only [engineView, EngineView.mk.injEq] at h
  obtain ⟨hts, hst, htk, hin, hsto, hdeg, hlp, hcnc, hpre, hp1, hp2, hfur,
    hc1, hheat, hc2, hins, horc⟩ := h
  cases w with
  | command t name v =>
    cases t <;>
      simp only [applyWrite, engineView, EngineView.mk.injEq, hts, hst, htk,
        hin, hsto, hdeg, hlp, hcnc, hpre, hp1, hp2, hfur, hc1, hheat, hc2,
        horc, hins, inspectView_set_command name v hins, and_true, true_and,
        and_self, eq_self_iff_true]
  | setEnabled t v =>
    cases t <;>
      simp only [applyWrite, engineView, EngineView.mk.injEq, hts, hst, htk,
        hin, hsto, hdeg, hlp, hcnc, hpre, hp1, hp2, hfur, hc1, hheat, hc2,
        horc, hins, inspectView_setEnabled v hins, and_true, true_and,
        and_self, eq_self_iff_true]

theorem view_flowFeedFurnace {o1 o2 : OrchState} {s1 s2 : EngineState}
    (ho : orchView o1 = orchView o2) (hs : engineView s1 = engineView s2) :
    orchView (flowFeedFurnace (o1, s1)).1 = orchView (flowFeedFurnace (o2, s2)).1 ∧
      engineView (flowFeedFurnace (o1, s1)).2 = engineView (flowFeedFurnace (o2, s2)).2 := by
  simp only [orchView, OrchView.mk.injEq] at ho
  obtain ⟨hw1, hw2, hw3, hw4, hw5, hw6, hw7, hk1, hk2, hb1, hb2, hb3, hb4⟩ := ho
  simp only [engineView, EngineView.mk.injEq] at hs
  obtain ⟨hts, hst, htk, hin, hsto, hdeg, hlp, hcnc, hpre, hp1, hp2, hfur,
    hc1, hheat, hc2, hins, horc⟩ := hs
  constructor
  · simp only [flowFeedFurnace, orchView, hw1, hw2, hw3, hw4, hw5, hw6, hw7,
      hk1, hk2, hb1, hb2, hb3, hb4, hfur]
  · simp only [flowFeedFurnace, engineView, hw1, hw3, hfur, hts, hst, htk,
      hin, hsto, hdeg, hlp, hcnc, hpre, hp1, hp2, hc1, hheat, hc2, hins,
      horc, EngineView.mk.injEq, and_self, and_true, true_and]

theorem view_flowFeedDegasser {o1 o2 : OrchState} {s1 s2 : EngineState}
    (ho : orchView o1 = orchView o2) (hs : engineView s1 = engineView s2) :
    orchView (flowFeedDegasser (o1, s1)).1 = orchView (flowFeedDegasser (o2, s2)).1 ∧
      engineView (flowFeedDegasser (o1, s1)).2 = engineView (flowFeedDegasser (o2, s2)).2 := by
  simp only [orchView, OrchView.mk.injEq] at ho
  obtain ⟨hw1, hw2, hw3, hw4, hw5, hw6, hw7, hk1, hk2, hb1, hb2, hb3, hb4⟩ := ho
  simp only [engineView, EngineView.mk.injEq] at hs
  obtain ⟨hts, hst, htk, hin, hsto, hdeg, hlp, hcnc, hpre, hp1, hp2, hfur,
    hc1, hheat, hc2, hins, horc⟩ := hs
  constructor
  · simp only [flowFeedDegasser, orchView, hw1, hw2, hw3, hw4, hw5, hw6, hw7,
      hk1, hk2, hb1, hb2, hb3, hb4, hdeg]
  · simp only [flowFeedDegasser, engineView, hw2, hdeg, hts, hst, htk,
      hin, hsto, hlp, hcnc, hpre, hp1, hp2, hfur, hc1, hheat, hc2, hins,
      horc, EngineView.mk.injEq, and_self, and_true, true_and]

theorem view_flowFeedLpdc {o1 o2 : OrchState} {s1 s2 : EngineState}
    (ho : orchView o1 = orchView o2) (hs : engineView s1 = engineView s2) :
    orchView (flowFeedLpdc (o1, s1)).1 = orchView (flowFeedLpdc (o2, s2)).1 ∧
      engineView (flowFeedLpdc (o1, s1)).2 = engineView (flowFeedLpdc (o2, s2)).2 := by
  simp only [orchView, OrchView.mk.injEq] at ho
  obtain ⟨hw1, hw2, hw3, hw4, hw5, hw6, hw7, hk1, hk2, hb1, hb2, hb3, hb4⟩ := ho
  simp only [engineView, EngineView.mk.injEq] at hs
  obtain ⟨hts, hst, htk, hin, hsto, hdeg, hlp, hcnc, hpre, hp1, hp2, hfur,
    hc1, hheat, hc2, hins, horc⟩ := hs
  constructor
  · simp only [flowFeedLpdc, orchView, hw1, hw2, hw3, hw4, hw5, hw6, hw7,
      hk1, hk2, hb1, hb2, hb3, hb4, hlp]
  · simp only [flowFeedLpdc, engineView, hw3, hlp, hts, hst, htk,
      hin, hsto, hdeg, hcnc, hpre, hp1, hp2, hfur, hc1, hheat, hc2, hins,
      horc, EngineView.mk.injEq, and_self, and_true, true_and]

theorem view_flowFeedHeat {o1 o2 : OrchState} {s1 s2 : EngineState}
    (ho : orchView o1 = orchView o2) (hs : engineView s1 = engineView s2) :
    orchView (flowFeedHeat (o1, s1)).1 = orchView (flowFeedHeat (o2, s2)).1 ∧
      engineView (flowFeedHeat (o1, s1)).2 = engineView (flowFeedHeat (o2, s2)).2 := by
  simp only [orchView, OrchView.mk.injEq] at ho
  obtain ⟨hw1, hw2, hw3, hw4, hw5, hw6, hw7, hk1, hk2, hb1, hb2, hb3, hb4⟩ := ho
  simp only [engineView, EngineView.mk.injEq] at hs
  obtain ⟨hts, hst, htk, hin, hsto, hdeg, hlp, hcnc, hpre, hp1, hp2, hfur,
    hc1, hheat, hc2, hins, horc⟩ := hs
  constructor
  · simp only [flowFeedHeat, orchView, hw1, hw2, hw3, hw4, hw5, hw6, hw7,
      hk1, hk2, hb1, hb2, hb3, hb4, hheat]
  · simp only [flowFeedHeat, engineView, hw4, hheat, hts, hst, htk,
      hin, hsto, hdeg, hlp, hcnc, hpre, hp1, hp2, hfur, hc1, hc2, hins,
      horc, EngineView.mk.injEq, and_self, and_true, true_and]

theorem view_flowFeedCnc {o1 o2 : OrchState} {s1 s2 : EngineState}
    (ho : orchView o1 = orchView o2) (hs : engineView s1 = engineView s2) :
    orchView (flowFeedCnc (o1, s1)).1 = orchView (flowFeedCnc (o2, s2)).1 ∧
      engineView (flowFeedCnc (o1, s1)).2 = engineView (flowFeedCnc (o2, s2)).2 := by
  simp only [orchView, OrchView.mk.injEq] at ho
  obtain ⟨hw1, hw2, hw3, hw4, hw5, hw6, hw7, hk1, hk2, hb1, hb2, hb3, hb4⟩ := ho
  simp only [engineView, EngineView.mk.injEq] at hs
  obtain ⟨hts, hst, htk, hin, hsto, hdeg, hlp, hcnc, hpre, hp1, hp2, hfur,
    hc1, hheat, hc2, hins, horc⟩ := hs
  constructor
  · simp only [flowFeedCnc, orchView, hw1, hw2, hw3, hw4, hw5, hw6, hw7,
      hk1, hk2, hb1, hb2, hb3, hb4, hcnc]
  · simp only [flowFeedCnc, engineView, hw5, hcnc, hts, hst, htk,
      hin, hsto, hdeg, hlp, hpre, hp1, hp2, hfur, hc1, hheat, hc2, hins,
      horc, EngineView.mk.injEq, and_self, and_true, true_and]

theorem view_flowFeedPaint {o1 o2 : OrchState} {s1 s2 : EngineState}
    (ho : orchView o1 = orchView o2) (hs : engineView s1 = engineView s2) :
    orchView (flowFeedPaint (o1, s1)).1 = orchView (flowFeedPaint (o2, s2)).1 ∧
      engineView (flowFeedPaint (o1, s1)).2 = engineView (flowFeedPaint (o2, s2)).2 := by
  simp only [orchView, OrchView.mk.injEq] at ho
  obtain ⟨hw1, hw2, hw3, hw4, hw5, hw6, hw7, hk1, hk2, hb1, hb2, hb3, hb4⟩ := ho
  simp only [engineView, EngineView.mk.injEq] at hs
  obtain ⟨hts, hst, htk, hin, hsto, hdeg, hlp, hcnc, hpre, hp1, hp2, hfur,
    hc1, hheat, hc2, hins, horc⟩ := hs
  constructor
  · simp only [flowFeedPaint, orchView, hw1, hw2, hw3, hw4, hw5, hw6, hw7,
      hk1, hk2, hb1, hb2, hb3, hb4, hp1]
  · simp only [flowFeedPaint, engineView, hw6, hp1, hts, hst, htk,
      hin, hsto, hdeg, hlp, hcnc, hpre, hp2, hfur, hc1, hheat, hc2, hins,
      horc, EngineView.mk.injEq, and_self, and_true, true_and]

theorem view_flowFeedInspect {o1 o2 : OrchState} {s1 s2 : EngineState}
    (ho : orchView o1 = orchView o2) (hs : engineView s1 = engineView s2) :
    orchView (flowFeedInspect (o1, s1)).1 = orchView (flowFeedInspect (o2, s2)).1 ∧
      engineView (flowFeedInspect (o1, s1)).2 = engineView (flowFeedInspect (o2, s2)).2 := by
  simp only [orchView, OrchView.mk.injEq] at ho
  obtain ⟨hw1, hw2, hw3, hw4, hw5, hw6, hw7, hk1, hk2, hb1, hb2, hb3, hb4⟩ := ho
  simp only [engineView, EngineView.mk.injEq] at hs
  obtain ⟨hts, hst, htk, hin, hsto, hdeg, hlp, hcnc, hpre, hp1, hp2, hfur,
    hc1, hheat, hc2, hins, horc⟩ := hs
  simp only [inspectView, InspectView.mk.injEq] at hins
  obtain ⟨hi1, hi2, hi3, hi4, hi5, hi6, hi7, hi8, hi9⟩ := hins
  constructor
  · simp only [flowFeedInspect, orchView, isIdleI, hw1, hw2, hw3, hw4, hw5,
      hw6, hw7, hk1, hk2, hb1, hb2, hb3, hb4, hi8, hi9]
  · simp only [flowFeedInspect, engineView, inspectView, isIdleI, hw7, hts,
      hst, htk, hin, hsto, hdeg, hlp, hcnc, hpre, hp1, hp2, hfur, hc1,
      hheat, hc2, horc, hi1, hi2, hi3, hi4, hi5, hi6, hi7, hi8, hi9,
      EngineView.mk.injEq, InspectView.mk.injEq, and_self, and_true, true_and]

theorem view_processFlowA {o1 o2 : OrchState} {s1 s2 : EngineState}
    (ho : orchView o1 = orchView o2) (hs : engineView s1 = engineView s2) :
    orchView (processFlowA (o1, s1)).1 = orchView (processFlowA (o2, s2)).1 ∧
      engineView (processFlowA (o1, s1)).2 = engineView (processFlowA (o2, s2)).2 := by
  have h1 := view_flowFeedFurnace ho hs
  have h2 := view_flowFeedDegasser h1.1 h1.2
  have h3 := view_flowFeedLpdc h2.1 h2.2
  have h4 := view_flowFeedHeat h3.1 h3.2
  have h5 := view_flowFeedCnc h4.1 h4.2
  have h6 := view_flowFeedPaint h5.1 h5.2
  have h7 := view_flowFeedInspect h6.1 h6.2
  simpa only [processFlowA] using h7

theorem view_collectOutputsA {o1 o2 : OrchState} {s1 s2 : EngineState}
    (ho : orchView o1 = orchView o2) (hs : engineView s1 = engineView s2) :
    orchView (collectOutputsA (o1, s1)).1 = orchView (collectOutputsA (o2, s2)).1 ∧
      engineView (collectOutputsA (o1, s1)).2 = engineView (collectOutputsA (o2, s2)).2 := by
  simp only [orchView, OrchView.mk.injEq] at ho
  obtain ⟨hw1, hw2, hw3, hw4, hw5, hw6, hw7, hk1, hk2, hb1, hb2, hb3, hb4⟩ := ho
  simp only [engineView, EngineView.mk.injEq] at hs
  obtain ⟨hts, hst, htk, hin, hsto, hdeg, hlp, hcnc, hpre, hp1, hp2, hfur,
    hc1, hheat, hc2, hins, horc⟩ := hs
  constructor
  · simp only [collectOutputsA, orchView, hw1, hw2, hw3, hw4, hw5, hw6, hw7,
      hk1, hk2, hb1, hb2, hb3, hb4, hfur, hdeg, hlp, hcnc, hp1, hheat]
  · simp only [collectOutputsA, engineView, hfur, hdeg, hlp, hcnc, hp1,
      hheat, hts, hst, htk, hin, hsto, hpre, hp2, hc1, hc2, hins, horc,
      EngineView.mk.injEq, and_self, and_true, true_and]

theorem frame_collectOutputsB (os : OrchState × EngineState) :
    orchView (collectOutputsB os).1 = orchView os.1 ∧
      engineView (collectOutputsB os).2 = engineView os.2 := by
  constructor
  · rfl
  · rfl

theorem frame_processFlowB (os : OrchState × EngineState) :
    orchView (processFlowB os).1 = orchView os.1 ∧
      engineView (processFlowB os).2 = engineView os.2 := by
  constructor
  · rfl
  · rfl

theorem frame_updateKpis (t : ℚ) (o : OrchState) :
    orchView (updateKpis t o) = orchView o := rfl

theorem view_checkBatchLifecycle {o1 o2 : OrchState}
    (ho : orchView o1 = orchView o2) :
    orchView (checkBatchLifecycle o1) = orchView (checkBatchLifecycle o2) := by
  simp only [orchView, OrchView.mk.injEq] at ho
  obtain ⟨hw1, hw2, hw3, hw4, hw5, hw6, hw7, hk1, hk2, hb1, hb2, hb3, hb4⟩ := ho
  unfold checkBatchLifecycle
  by_cases hc : o1.wip.ingots_kg ≤ 0
  · rw [if_pos hc, if_pos (hw1 ▸ hc)]
    simp only [orchView, OrchView.mk.injEq, hw2, hw3, hw4, hw5, hw6, hw7,
      hk1, hk2, hb1, hb2, hb3, hb4, and_self, and_true, true_and,
      eq_self_iff_true]
  · rw [if_neg hc, if_neg (hw1 ▸ hc)]
    simp only [orchView, OrchView.mk.injEq, hw1, hw2, hw3, hw4, hw5, hw6,
      hw7, hk1, hk2, hb1, hb2, hb3, hb4, and_self, and_true, true_and,
      eq_self_iff_true]

theorem view_orchTick (t : ℚ) {o1 o2 : OrchState} {s1 s2 : EngineState}
    (ho : orchView o1 = orchView o2) (hs : engineView s1 = engineView s2) :
    orchView (orchTick t (o1, s1)).1 = orchView (orchTick t (o2, s2)).1 ∧
      engineView (orchTick t (o1, s1)).2 = engineView (orchTick t (o2, s2)).2 := by
  have hoL : orchView { o1 with last_sim_time := t } =
      orchView { o2 with last_sim_time := t } := by
    simp only [orchView, OrchView.mk.injEq] at ho ⊢
    obtain ⟨hw1, hw2, hw3, hw4, hw5, hw6, hw7, hk1, hk2, hb1, hb2, hb3, hb4⟩ := ho
    simp only [hw1, hw2, hw3, hw4, hw5, hw6, hw7, hk1, hk2, hb1, hb2, hb3,
      and_self, and_true, true_and, eq_self_iff_true]
  have hA := view_collectOutputsA hoL hs
  have hB1 := frame_collectOutputsB
    (collectOutputsA ({ o1 with last_sim_time := t }, s1))
  have hB2 := frame_collectOutputsB
    (collectOutputsA ({ o2 with last_sim_time := t }, s2))
  have hC1 : orchView (collectOutputs ({ o1 with last_sim_time := t }, s1)).1 =
      orchView (collectOutputs ({ o2 with last_sim_time := t }, s2)).1 := by
    unfold collectOutputs
    exact (hB1.1.trans hA.1).trans hB2.1.symm
  have hC2 : engineView (collectOutputs ({ o1 with last_sim_time := t }, s1)).2 =
      engineView (collectOutputs ({ o2 with last_sim_time := t }, s2)).2 := by
    unfold collectOutputs
    exact (hB1.2.trans hA.2).trans hB2.2.symm
  have hD := view_processFlowA hC1 hC2
  have hE1 := frame_processFlowB
    (processFlowA (collectOutputs ({ o1 with last_sim_time := t }, s1)))
  have hE2 := frame_processFlowB
    (processFlowA (collectOutputs ({ o2 with last_sim_time := t }, s2)))
  have hF1 : orchView (processLowMaterialFlow
        (collectOutputs ({ o1 with last_sim_time := t }, s1))).1 =
      orchView (processLowMaterialFlow
        (collectOutputs ({ o2 with last_sim_time := t }, s2))).1 := by
    unfold processLowMaterialFlow
    exact (hE1.1.trans hD.1).trans hE2.1.symm
  have hF2 : engineView (processLowMaterialFlow
        (collectOutputs ({ o1 with last_sim_time := t }, s1))).2 =
      engineView (processLowMaterialFlow
        (collectOutputs ({ o2 with last_sim_time := t }, s2))).2 := by
    unfold processLowMaterialFlow
    exact (hE1.2.trans hD.2).trans hE2.2.symm
  have hG := view_checkBatchLifecycle
    ((frame_updateKpis t _).trans (hF1.trans (frame_updateKpis t _).symm))
  exact ⟨hG, hF2⟩

theorem view_tickAllMachines {s1 s2 : EngineState}
    (hs : engineView s1 = engineView s2) :
    engineView (tickAllMachines s1) = engineView (tickAllMachines s2) := by
  simp only [engineView, EngineView.mk.injEq] at hs
  obtain ⟨hts, hst, htk, hin, hsto, hdeg, hlp, hcnc, hpre, hp1, hp2, hfur,
    hc1, hheat, hc2, hins, horc⟩ := hs
  have htick := inspectView_tick s2.time_step s1.rng s2.rng hins
  simp only [tickAllMachines, engineView, EngineView.mk.injEq, hts, hst, htk,
    hin, hsto, hdeg, hlp, hcnc, hpre, hp1, hp2, hfur, hc1, hheat, hc2, horc,
    htick, and_self, and_true, true_and, eq_self_iff_true]

theorem engineView_setOrch {s1 s2 : EngineState} {o1 o2 : OrchState}
    (hs : engineView s1 = engineView s2) (ho : orchView o1 = orchView o2) :
    engineView { s1 with orch := some o1 } =
      engineView { s2 with orch := some o2 } := by
  simp only [engineView, EngineView.mk.injEq] at hs ⊢
  obtain ⟨hts, hst, htk, hin, hsto, hdeg, hlp, hcnc, hpre, hp1, hp2, hfur,
    hc1, hheat, hc2, hins, horc⟩ := hs
  simp only [hts, hst, htk, hin, hsto, hdeg, hlp, hcnc, hpre, hp1, hp2, hfur,
    hc1, hheat, hc2, hins, Option.map_some', ho, and_self, and_true, true_and,
    eq_self_iff_true]

theorem view_engineStepRun {o1 o2 : OrchState} {s1 s2 : EngineState}
    (ho : orchView o1 = orchView o2) (hs : engineView s1 = engineView s2) :
    engineView (engineStepRun o1 s1) = engineView (engineStepRun o2 s2) := by
  have hst : s1.sim_time = s2.sim_time := congrArg EngineView.sim_time hs
  have hT := view_orchTick s1.sim_time ho hs
  rw [hst] at hT
  have hMid := view_tickAllMachines (engineView_setOrch hT.2 hT.1)
  simp only [engineStepRun, hst]
  simp only [engineView, EngineView.mk.injEq] at hMid ⊢
  obtain ⟨hts, hst2, htk, hin, hsto, hdeg, hlp, hcnc, hpre, hp1, hp2, hfur,
    hc1, hheat, hc2, hins, horc⟩ := hMid
  simp only [hts, hst2, htk, hin, hsto, hdeg, hlp, hcnc, hpre, hp1, hp2,
    hfur, hc1, hheat, hc2, hins, horc, and_self, and_true, true_and,
    eq_self_iff_true]

theorem view_engineStep (p b : Bool) {s1 s2 : EngineState}
    (hs : engineView s1 = engineView s2) :
    engineView (engineStep p b s1) = engineView (engineStep p b s2) := by
  have horc : s1.orch.map orchView = s2.orch.map orchView :=
    congrArg EngineView.orchV hs
  have hst : s1.sim_time = s2.sim_time := congrArg EngineView.sim_time hs
  unfold engineStep
  by_cases hg : (p = true) ∧ ¬(b = true)
  · rw [if_pos hg, if_pos hg]
    exact hs
  · rw [if_neg hg, if_neg hg]
    rcases ho1 : s1.orch with _ | o1 <;> rcases ho2 : s2.orch with _ | o2
    · exact view_engineStepRun (by simp only [startSession, orchView, hst]) hs
    · rw [ho1, ho2] at horc
      exact absurd horc (by simp)
    · rw [ho1, ho2] at horc
      exact absurd horc (by simp)
    · rw [ho1, ho2] at horc
      simp only [Option.map_some', Option.some.injEq] at horc
      exact view_engineStepRun horc hs

theorem view_applyWrites (ws : List ExtWrite) {s1 s2 : EngineState}
    (hs : engineView s1 = engineView s2) :
    engineView (applyWrites ws s1) = engineView (applyWrites ws s2) := by
  induction ws generalizing s1 s2 with
  | nil => exact hs
  | cons w ws ih => exact ih (engineView_applyWrite w hs)

theorem view_runEngine (p : Bool) (ws : ℕ → List ExtWrite)
    (preds : ℕ → Bool) (r1 r2 : Rng) (n : ℕ) :
    engineView (runEngine p ws preds r1 n) =
      engineView (runEngine p ws preds r2 n) := by
  induction n with
  | zero => rfl
  | succ n ih =>
    exact view_engineStep p (preds n) (view_applyWrites (ws n) ih)

/-! ### Claim theorems -/


/-- C1, counterexample.  The two states below agree on everything that the
machine configuration, the command history and the *seed* determine — their
draw-independent views are equal, and the only seeded RNG in the core (the
flow engine's `random.Random(42)`) does not feed the orchestrator at all —
yet one orchestrator collect pass (`_collect_outputs`) scraps the part under
one global draw stream and passes it under the other: the inspection/packing
rejection decisions are drawn from the unseeded process-global `random`
module, so the per-tick observable `Plant.WIP.scrap_parts` is not
reproducible from the seed, contradicting the claim as stated. -/
theorem claim_C1_counterexample :
    engineView (cexState cexRngA) = engineView (cexState cexRngB) ∧
      (collectOutputs (orchInit, cexState cexRngA)).1.wip.scrap_parts = 1 ∧
      (collectOutputs (orchInit, cexState cexRngB)).1.wip.scrap_parts = 0 ∧
      (collectOutputs (orchInit, cexState cexRngA)).1.wip.scrap_parts ≠
        (collectOutputs (orchInit, cexState cexRngB)).1.wip.scrap_parts := by
  refine ⟨rfl, ?_, ?_, ?_⟩ <;>
    norm_num [collectOutputs, collectOutputsA, collectOutputsB, inspectGate,
      packGate, Rng.draw, cexState, cexRngA, cexRngB, initEngine, orchInit,
      InspectionMachine.init, SimpleMachine.init, ThermalMachine.init]

/-- C1, amended.  Replay determinism of the furnace observables: for two
runs of the core with the same machine configuration, the same external
command sequence and the same run-predicate history, the furnace's per-tick
temperature and processed-count sequences are bit-identical — even across
*different* global random draw streams (and hence in particular across two
runs with the same seed): the rejection draws never influence the furnace.
The observables at and downstream of the inspection gate are exactly the
ones that are not seed-determined (see the counterexample). -/
theorem claim_C1 (p : Bool) (ws : ℕ → List ExtWrite) (preds : ℕ → Bool)
    (r1 r2 : Rng) (n : ℕ) :
    (runEngine p ws preds r1 n).furnace.dev.phys.T_current =
        (runEngine p ws preds r2 n).furnace.dev.phys.T_current ∧
      (runEngine p ws preds r1 n).furnace.processed_count =
        (runEngine p ws preds r2 n).furnace.processed_count := by
  have h : (runEngine p ws preds r1 n).furnace =
      (runEngine p ws preds r2 n).furnace :=
    congrArg EngineView.furnace (view_runEngine p ws preds r1 r2 n)
  exact ⟨congrArg (fun m => m.dev.phys.T_current) h,
    congrArg (fun m => m.processed_count) h⟩

/-- C2.  When the externally supplied run predicate (`plc_ref.is_running()`)
evaluates false, `SimulationEngine.step()` is a no-op: the returned state is
the input state, so no orchestrator tick runs, no machine ticks run, no
machine or orchestrator field is mutated, and neither `sim_time` nor the
tick counter advances. -/
theorem claim_C2 : ∀ s : EngineState, engineStep true false s = s :=
  fun _ => rfl

theorem cncTrigger_skip (tr : Bool) (mo : String) (s : CncState)
    (h : s.progress ≠ 0) : cncTrigger tr mo s = s := by
  unfold cncTrigger
  rw [if_neg]
  rintro ⟨-, -, hc⟩
  exact h hc

theorem cncAdvance_skip (dt : ℚ) (s : CncState) (h : s.job_active = false) :
    cncAdvance dt s = s := by
  unfold cncAdvance
  rw [if_neg]
  rintro ⟨hc, -⟩
  simp [h] at hc

theorem cncComplete_done (s : CncState) (h : s.progress = 100) :
    cncComplete s = { s with progress := 100, spindle_rpm := 0, busy := false, job_active := false } := by
  unfold cncComplete
  rw [if_pos (by simp [h])]

theorem cncReset_skip (rr : Bool) (s : CncState) (h : rr = false) :
    cncReset rr s = s := by
  unfold cncReset
  rw [if_neg]
  simp [h]

theorem cncReset_rearm (s : CncState) (h : s.job_active = false) :
    cncReset true s = { s with progress := 0, spindle_rpm := 0, busy := false } := by
  unfold cncReset
  rw [if_pos (by simp [h])]

theorem cnc_post_complete (rr : Bool) (s : CncState)
    (h : (cncReset rr (cncComplete s)).progress ≥ 100) :
    (cncReset rr (cncComplete s)).progress = 100 ∧
      (cncReset rr (cncComplete s)).busy = false ∧
      (cncReset rr (cncComplete s)).job_active = false := by
  unfold cncComplete at *
  by_cases h3 : s.progress ≥ 100
  · rw [if_pos h3] at *
    unfold cncReset at *
    by_cases h4 : rr = true ∧ ¬({ s with progress := 100, spindle_rpm := 0, busy := false, job_active := false } : CncState).job_active = true
    · rw [if_pos h4] at h
      exact absurd h (by norm_num)
    · rw [if_neg h4] at *
      exact ⟨rfl, rfl, rfl⟩
  · rw [if_neg h3] at *
    unfold cncReset at *
    by_cases h4 : rr = true ∧ ¬s.job_active = true
    · rw [if_pos h4] at h
      exact absurd h (by norm_num)
    · rw [if_neg h4] at h
      exact absurd h h3

/-- C9.  CNC model: (i) a trigger supplied while a job is active or progress
is nonzero has no effect at all (the step result is identical with the
trigger low); (ii) whenever a step ends with progress at least 100 it ends
with progress exactly 100, `busy` false and the job inactive (completion
sets progress to exactly 100 and clears busy); (iii) from the completed
state (progress 100, no active job), without a reset request the progress
stays at 100 under any input — a trigger alone never re-arms — and (iv) an
explicit reset request returns the progress to 0. -/
theorem claim_C9 (s : CncState) (dt : ℚ) (i : CncInputs) :
    ((s.job_active = true ∨ 0 < s.progress) → ∀ (mo : String) (rr : Bool),
      cncStep dt ⟨true, mo, rr⟩ s = cncStep dt ⟨false, mo, rr⟩ s) ∧
      ((cncStep dt i s).progress ≥ 100 →
        (cncStep dt i s).progress = 100 ∧ (cncStep dt i s).busy = false ∧
          (cncStep dt i s).job_active = false) ∧
      (s.progress = 100 → s.job_active = false → i.reset_request = false →
        (cncStep dt i s).progress = 100) ∧
      (s.progress = 100 → s.job_active = false → i.reset_request = true →
        (cncStep dt i s).progress = 0) := by
  refine ⟨?_, ?_, ?_, ?_⟩
  · intro h mo rr
    unfold cncStep cncTrigger
    rcases h with hja | hpg
    · simp [hja]
    · simp [(ne_of_gt hpg)]
  · exact cnc_post_complete i.reset_request _
  · intro hpg hja hrr
    unfold cncStep
    dsimp only
    rw [cncTrigger_skip _ _ _ (by rw [hpg]; norm_num),
      cncAdvance_skip _ _ hja, cncComplete_done _ hpg, hrr,
      cncReset_skip _ _ rfl]
  · intro hpg hja hrr
    unfold cncStep
    dsimp only
    rw [cncTrigger_skip _ _ _ (by rw [hpg]; norm_num),
      cncAdvance_skip _ _ hja, cncComplete_done _ hpg, hrr,
      cncReset_rearm _ rfl]


/-- C9, witness at concrete CNC states. -/
theorem claim_C9_witness :
    cncStep 1 ⟨true, "roughing", false⟩ c9mid =
        cncStep 1 ⟨false, "roughing", false⟩ c9mid ∧
      (cncStep 1 ⟨false, "roughing", false⟩ c9done).progress = 100 ∧
      (cncStep 1 ⟨false, "roughing", false⟩ c9done).busy = false ∧
      (cncStep 1 ⟨true, "roughing", true⟩ c9done).progress = 0 := by
  have h3 := (claim_C9 c9done 1 ⟨false, "roughing", false⟩).2.2.1 rfl rfl rfl
  have h2 := (claim_C9 c9done 1 ⟨false, "roughing", false⟩).2.1
    (by rw [h3])
  exact ⟨(claim_C9 c9mid 1 ⟨true, "roughing", false⟩).1 (Or.inl rfl)
      "roughing" false,
    h3, h2.2.1, (claim_C9 c9done 1 ⟨true, "roughing", true⟩).2.2.2 rfl rfl rfl⟩

/-- C8.  LPDC model: (i) every step either keeps the cycle state or moves it
to its successor in IDLE → FILLING → HOLDING → SOLIDIFYING → COMPLETE →
IDLE, so the state sequence observed over a full pour-to-reset run is
exactly that cycle and no other transition ever occurs; (ii) the fill
percentage is non-decreasing throughout FILLING; (iii) the fill percentage
stays within [0, 100]; (iv) COMPLETE is terminal until an explicit reset
request; (v) the pour-request input has no effect outside IDLE. -/
theorem claim_C8 (dt : ℝ) (i : LpdcInputs) (s : LpdcState) :
    ((lpdcStep dt i s).state = s.state ∨
        (lpdcStep dt i s).state = lpdcNext s.state) ∧
      (s.state = LpdcPhase.FILLING → 0 ≤ dt → s.fill_height ≤ 100 →
        s.fill_height ≤ (lpdcStep dt i s).fill_height) ∧
      (0 ≤ dt → 0 ≤ s.fill_height → s.fill_height ≤ 100 →
        0 ≤ (lpdcStep dt i s).fill_height ∧
          (lpdcStep dt i s).fill_height ≤ 100) ∧
      (s.state = LpdcPhase.COMPLETE → i.reset_request = false →
        (lpdcStep dt i s).state = LpdcPhase.COMPLETE) ∧
      (s.state ≠ LpdcPhase.IDLE → ∀ (ps : ℝ) (rr : Bool),
        lpdcStep dt ⟨true, ps, rr⟩ s = lpdcStep dt ⟨false, ps, rr⟩ s) := by
  refine ⟨?_, ?_, ?_, ?_, ?_⟩
  · rcases hst : s.state <;>
      simp only [lpdcStep, hst, lpdcNext] <;>
      split_ifs <;> simp [lpdcNext]
  · intro hst hdt hfill
    have hsq : 0 ≤ lpdc_k_fill * Real.sqrt (max 0 (min 100 i.pressure_setpoint)) * dt := by
      have := Real.sqrt_nonneg (max 0 (min 100 i.pressure_setpoint))
      have : (0 : ℝ) ≤ lpdc_k_fill := by norm_num [lpdc_k_fill]
      positivity
    simp only [lpdcStep, hst]
    split_ifs <;> simp <;> nlinarith [Real.sqrt_nonneg (max 0 (min 100 i.pressure_setpoint))]
  · intro hdt h0 h100
    have hsq : 0 ≤ Real.sqrt (max 0 (min 100 i.pressure_setpoint)) :=
      Real.sqrt_nonneg _
    rcases hst : s.state <;> simp only [lpdcStep, hst] <;> split_ifs <;>
      refine ⟨?_, ?_⟩ <;> simp_all <;>
      nlinarith [Real.sqrt_nonneg (max 0 (min 100 i.pressure_setpoint)),
        mul_nonneg (mul_nonneg
          (by norm_num [lpdc_k_fill] : (0:ℝ) ≤ lpdc_k_fill)
          (Real.sqrt_nonneg (max 0 (min 100 i.pressure_setpoint)))) hdt]
  · intro hst hrr
    simp [lpdcStep, hst, hrr]
  · intro hst ps rr
    rcases h : s.state <;> simp [lpdcStep, h]
    exact absurd h hst


/-- C8, witness at concrete LPDC states. -/
theorem claim_C8_witness :
    c8fill.fill_height ≤ (lpdcStep 1 ⟨false, 50, false⟩ c8fill).fill_height ∧
      (0 ≤ (lpdcStep 1 ⟨false, 50, false⟩ c8fill).fill_height ∧
        (lpdcStep 1 ⟨false, 50, false⟩ c8fill).fill_height ≤ 100) ∧
      (lpdcStep 1 ⟨false, 50, false⟩ c8done).state = LpdcPhase.COMPLETE ∧
      lpdcStep 1 ⟨true, 50, false⟩ c8done =
        lpdcStep 1 ⟨false, 50, false⟩ c8done := by
  refine ⟨(claim_C8 1 ⟨false, 50, false⟩ c8fill).2.1 rfl (by norm_num)
      (by norm_num [c8fill]),
    (claim_C8 1 ⟨false, 50, false⟩ c8fill).2.2.1 (by norm_num)
      (by norm_num [c8fill]) (by norm_num [c8fill]),
    (claim_C8 1 ⟨false, 50, false⟩ c8done).2.2.2.1 rfl rfl,
    (claim_C8 1 ⟨true, 50, false⟩ c8done).2.2.2.2 (by simp [c8done]) 50 false⟩



theorem flowFeedFurnace_inv (os : OrchState × EngineState)
    (h : OrchInv os.1) : OrchInv (flowFeedFurnace os).1 := by
  obtain ⟨o, s⟩ := os
  obtain ⟨⟨w1, w2, w3, w4, w5, w6, w7, w8, w9, w10⟩, bid, bst, sst, lst,
    ⟨k1, k2, k3, k4, k5, k6⟩⟩ := o
  simp only [OrchInv, BATCH_SIZE_KG, flowFeedFurnace] at h ⊢
  split_ifs with hc <;> omega

theorem checkBatchLifecycle_inv (o : OrchState) (h : OrchInv o) :
    OrchInv (checkBatchLifecycle o) := by
  obtain ⟨⟨w1, w2, w3, w4, w5, w6, w7, w8, w9, w10⟩, bid, bst, sst, lst,
    ⟨k1, k2, k3, k4, k5, k6⟩⟩ := o
  simp only [OrchInv, BATCH_SIZE_KG, checkBatchLifecycle] at h ⊢
  split_ifs with hc <;> (try dsimp only at h ⊢) <;> omega

theorem orchInv_tick (t : ℚ) (os : OrchState × EngineState)
    (h : OrchInv os.1) : OrchInv (orchTick t os).1 := by
  have h1 : OrchInv (collectOutputs ({ os.1 with last_sim_time := t }, os.2)).1 := h
  have h2 := flowFeedFurnace_inv _ h1
  have h3 : OrchInv (processLowMaterialFlow
      (collectOutputs ({ os.1 with last_sim_time := t }, os.2))).1 := h2
  exact checkBatchLifecycle_inv _ h3

theorem applyWrite_orch (w : ExtWrite) (s : EngineState) :
    (applyWrite w s).orch = s.orch := by
  cases w with
  | command t name v => cases t <;> rfl
  | setEnabled t v => cases t <;> rfl

theorem orchInv_startSession (t : ℚ) :
    OrchInv (startSession t orchInit) := by
  simp only [OrchInv, startSession, orchInit, BATCH_SIZE_KG]
  omega

theorem engineStep_orch_noGate (p b : Bool) (s : EngineState)
    (hg : ¬((p = true) ∧ ¬(b = true))) :
    ∀ o0 : OrchState, s.orch = some o0 →
      (engineStep p b s).orch =
        some (orchTick s.sim_time (o0, s)).1 := by
  intro o0 h
  unfold engineStep
  rw [if_neg hg, h]
  rfl

theorem engineStep_orch_noGate_init (p b : Bool) (s : EngineState)
    (hg : ¬((p = true) ∧ ¬(b = true))) (h : s.orch = none) :
    (engineStep p b s).orch =
      some (orchTick s.sim_time (startSession s.sim_time orchInit, s)).1 := by
  unfold engineStep
  rw [if_neg hg, h]
  rfl

theorem engineReach_orchInv :
    ∀ s : EngineState, EngineReach s → ∀ o : OrchState, s.orch = some o →
      OrchInv o := by
  intro s hr
  induction hr with
  | init r =>
    intro o ho
    exact absurd ho (by simp [initEngine])
  | step p b hr ih =>
    rename_i s'
    intro o ho
    by_cases hg : (p = true) ∧ ¬(b = true)
    · have he : (engineStep p b s').orch = s'.orch := by
        unfold engineStep
        rw [if_pos hg]
      rw [he] at ho
      exact ih o ho
    · rcases hso : s'.orch with _ | o0
      · rw [engineStep_orch_noGate_init p b s' hg hso] at ho
        injection ho with ho'
        exact ho' ▸ orchInv_tick _ _ (orchInv_startSession _)
      · rw [engineStep_orch_noGate p b s' hg o0 hso] at ho
        injection ho with ho'
        exact ho' ▸ orchInv_tick _ _ (ih o0 hso)
  | write w hr ih =>
    intro o ho
    rw [applyWrite_orch] at ho
    exact ih o ho

/-- C6.  Batch lifecycle.  (i) In every reachable engine state the
orchestrator's ingot stock is a non-negative multiple of 10 kg bounded by
`BATCH_SIZE_KG = 50`, and the consumed-ingots KPI equals 50 kg per completed
batch plus what the current batch has fed so far — since each furnace feed
moves exactly 10 kg, every batch is completed after exactly five melt-feed
events, and `ingots_kg` is never negative.  (ii) When the ingot stock
reaches zero, `_check_batch_lifecycle` increments the batches-completed KPI,
assigns the next batch id and restocks exactly `BATCH_SIZE_KG`, leaving
every other WIP entry — all the downstream in-flight material — and every
other KPI unchanged (the structure update below touches nothing else). -/
theorem claim_C6 :
    (∀ s : EngineState, EngineReach s → ∀ o : OrchState, s.orch = some o →
      0 ≤ o.wip.ingots_kg ∧ o.wip.ingots_kg ≤ BATCH_SIZE_KG ∧
        (10 ∣ o.wip.ingots_kg) ∧
        o.kpis.total_ingots_consumed =
          BATCH_SIZE_KG * o.kpis.batches_completed +
            (BATCH_SIZE_KG - o.wip.ingots_kg)) ∧
      (∀ o : OrchState, o.wip.ingots_kg ≤ 0 →
        checkBatchLifecycle o =
          { o with kpis.batches_completed := o.kpis.batches_completed + 1,
                   batch_id := o.batch_id + 1,
                   wip.ingots_kg := BATCH_SIZE_KG }) := by
  constructor
  · exact engineReach_orchInv
  · intro o h
    unfold checkBatchLifecycle
    rw [if_pos h]


/-- C6, witness: the engine state after one ungated tick from the factory
configuration (where the orchestrator exists), and the restock equation at
a concrete exhausted-stock state. -/
theorem claim_C6_witness :
    (0 ≤ ((engineStep true true (initEngine rngZero)).orch.getD
        orchInit).wip.ingots_kg ∧
      ((engineStep true true (initEngine rngZero)).orch.getD
        orchInit).wip.ingots_kg ≤ BATCH_SIZE_KG) ∧
      checkBatchLifecycle c6o =
        { c6o with kpis.batches_completed := c6o.kpis.batches_completed + 1,
                   batch_id := c6o.batch_id + 1,
                   wip.ingots_kg := BATCH_SIZE_KG } := by
  have h := claim_C6.1 (engineStep true true (initEngine rngZero))
    (EngineReach.step true true (EngineReach.init rngZero))
    ((engineStep true true (initEngine rngZero)).orch.getD orchInit) rfl
  exact ⟨⟨h.1, h.2.1⟩, claim_C6.2 c6o (by norm_num [c6o, orchInit])⟩

/-- C3.  For every machine (any device state and hook record), calling
`handle_start_command()` from IDLE (the only state from which the command is
valid) while `enabled` is false faults the machine with code 101 and returns
false, leaving every other field unchanged. -/
theorem claim_C3 {δ : Type} (ops : MachineOps δ) (m : BaseMachine δ)
    (hidle : m.state = MachineState.IDLE) (hen : m.enabled = false) :
    BaseMachine.handle_start_command ops m =
      ({ m with fault_code := 101, state := MachineState.FAULTED }, false) := by
  unfold BaseMachine.handle_start_command
  rw [if_neg (by simp [hidle]), if_pos (by simp [hen])]

/-- C3, witness: the freshly constructed packing machine (IDLE, disabled). -/
theorem claim_C3_witness :
    BaseMachine.handle_start_command simpleOps
        (SimpleMachine.init 4 Role.generic false false 100) =
      ({ SimpleMachine.init 4 Role.generic false false 100 with
          fault_code := 101, state := MachineState.FAULTED }, false) :=
  claim_C3 simpleOps _ rfl rfl

/-- C4.  FAULTED is terminal except for reset: for every machine, start and
stop commands are rejected without any state change, `force_safe_state` and
`tick` leave the state FAULTED (for each of the three concrete machine
classes, whose `force_safe_state` overrides never touch the FSM state and
whose ticks do nothing outside RUNNING), and `set_command` with any name
other than "reset" leaves the state FAULTED; only `handle_reset_command`
exits FAULTED, to IDLE with the fault code cleared to 0. -/
theorem claim_C4 :
    (∀ (δ : Type) (ops : MachineOps δ) (m : BaseMachine δ),
      m.state = MachineState.FAULTED →
      BaseMachine.handle_start_command ops m = (m, false) ∧
      BaseMachine.handle_stop_command ops m = (m, false) ∧
      (BaseMachine.force_safe_state ops m).state = MachineState.FAULTED ∧
      (∀ (execLogic : ℚ → ℕ × δ → ℕ × δ) (dt : ℚ),
        BaseMachine.tick ops execLogic dt m = m) ∧
      (∀ (name : String) (value : Bool), name ≠ "reset" →
        (BaseMachine.set_command ops name value m).state =
          MachineState.FAULTED) ∧
      BaseMachine.handle_reset_command ops m =
        ({ m with fault_code := 0, state := MachineState.IDLE,
                  dev := ops.onReset m.dev }, true)) ∧
    (∀ (m : BaseMachine SimpleDev), m.state = MachineState.FAULTED →
      ∀ (name : String) (value : Bool), name ≠ "reset" →
      (SimpleMachine.set_command name value m).state = MachineState.FAULTED) ∧
    (∀ (m : BaseMachine ThermalDev) (dt : ℚ), m.state = MachineState.FAULTED →
      (ThermalMachine.tick dt m).state = MachineState.FAULTED) ∧
    (∀ (m : BaseMachine InspectDev) (dt : ℚ) (r : Rng),
      m.state = MachineState.FAULTED → (InspectionMachine.tick dt r m).1 = m) ∧
    (∀ m : BaseMachine SimpleDev,
      (SimpleMachine.force_safe_state m).state = m.state) ∧
    (∀ m : BaseMachine ThermalDev,
      (ThermalMachine.force_safe_state m).state = m.state) ∧
    (∀ m : BaseMachine InspectDev,
      (InspectionMachine.force_safe_state m).state = m.state) := by
  have hgen : ∀ (δ : Type) (ops : MachineOps δ) (m : BaseMachine δ),
      m.state = MachineState.FAULTED →
      BaseMachine.handle_start_command ops m = (m, false) ∧
      BaseMachine.handle_stop_command ops m = (m, false) ∧
      (BaseMachine.force_safe_state ops m).state = MachineState.FAULTED ∧
      (∀ (execLogic : ℚ → ℕ × δ → ℕ × δ) (dt : ℚ),
        BaseMachine.tick ops execLogic dt m = m) ∧
      (∀ (name : String) (value : Bool), name ≠ "reset" →
        (BaseMachine.set_command ops name value m).state =
          MachineState.FAULTED) ∧
      BaseMachine.handle_reset_command ops m =
        ({ m with fault_code := 0, state := MachineState.IDLE,
                  dev := ops.onReset m.dev }, true) := by
    intro δ ops m hf
    have hstart : BaseMachine.handle_start_command ops m = (m, false) := by
      unfold BaseMachine.handle_start_command
      rw [if_pos (by simp [hf])]
    have hstop : BaseMachine.handle_stop_command ops m = (m, false) := by
      unfold BaseMachine.handle_stop_command
      rw [if_neg (by simp [hf])]
    refine ⟨hstart, hstop, ?_, ?_, ?_, ?_⟩
    · unfold BaseMachine.force_safe_state
      rw [if_neg (by simp [hf])]
      exact hf
    · intro execLogic dt
      unfold BaseMachine.tick
      rw [if_neg (by simp [hf]), if_neg (by simp [hf])]
    · intro name value hname
      unfold BaseMachine.set_command
      by_cases hv : value = true
      · rw [if_neg (by simp [hv])]
        by_cases h1 : name = "start"
        · rw [if_pos h1, hstart]
          exact hf
        · rw [if_neg h1]
          by_cases h2 : name = "stop"
          · rw [if_pos h2, hstop]
            exact hf
          · rw [if_neg h2, if_neg hname]
            exact hf
      · rw [if_pos (by simp [hv])]
        exact hf
    · unfold BaseMachine.handle_reset_command
      rw [if_pos (Or.inr hf)]
  refine ⟨hgen, ?_, ?_, ?_, ?_, ?_, ?_⟩
  · intro m hf name value hname
    unfold SimpleMachine.set_command
    have hbase := (hgen SimpleDev simpleOps m hf).2.2.2.2.1 name value hname
    by_cases h1 : name = "trigger"
    · rw [if_pos h1]
      exact hbase
    · rw [if_neg h1]
      by_cases h2 : name = "pour_request"
      · rw [if_pos h2]
        exact hbase
      · rw [if_neg h2]
        exact hbase
  · intro m dt hf
    obtain ⟨st, en, fc, pc, d⟩ := m
    simp only at hf
    subst hf
    simp [ThermalMachine.tick, BaseMachine.tick, thermalOps]
  · intro m dt r hf
    unfold InspectionMachine.tick
    rw [if_neg (by simp [hf])]
  · intro m
    rfl
  · intro m
    rfl
  · intro m
    rfl





/-- C4, witness at concrete faulted machines. -/
theorem claim_C4_witness :
    BaseMachine.handle_start_command simpleOps c4m = (c4m, false) ∧
      (BaseMachine.set_command simpleOps "start" true c4m).state =
        MachineState.FAULTED ∧
      (SimpleMachine.set_command "trigger" true c4m).state =
        MachineState.FAULTED ∧
      (ThermalMachine.tick (2 / 10) c4t).state = MachineState.FAULTED ∧
      (InspectionMachine.tick (2 / 10) rngZero c4i).1 = c4i ∧
      BaseMachine.handle_reset_command simpleOps c4m =
        ({ c4m with fault_code := 0, state := MachineState.IDLE, dev := simpleOps.onReset c4m.dev }, true) := by
  have h := claim_C4
  exact ⟨(h.1 SimpleDev simpleOps c4m rfl).1,
    (h.1 SimpleDev simpleOps c4m rfl).2.2.2.2.1 "start" true (by decide),
    h.2.1 c4m rfl "trigger" true (by decide),
    h.2.2.1 c4t (2 / 10) rfl,
    h.2.2.2.1 c4i (2 / 10) rngZero rfl,
    (h.1 SimpleDev simpleOps c4m rfl).2.2.2.2.2⟩


/-- C5, counterexample.  `SimpleMachine.set_command` stores the written
value into the device edge flag even when it is false: writing
`("trigger", false)` to a machine whose `cmd_trigger` is true clears the
flag, so the call is not a no-op on the machine state, contradicting the
claim that a falsy write leaves the entire state (including the edge-command
flags) unchanged. -/
theorem claim_C5_counterexample :
    SimpleMachine.set_command "trigger" false c5m ≠ c5m ∧
      (SimpleMachine.set_command "trigger" false c5m).dev.cmd_trigger = false ∧
      c5m.dev.cmd_trigger = true := by
  refine ⟨fun h => ?_, rfl, rfl⟩
  have := congrArg (fun m => m.dev.cmd_trigger) h
  simp only [SimpleMachine.set_command, BaseMachine.set_command] at this
  exact Bool.false_ne_true this

/-- C5, amended.  A falsy write triggers no command action: the base
dispatch (`BaseMachine.set_command`, used as-is by the thermal and
inspection machines) is a complete no-op on a falsy value, and
`SimpleMachine.set_command` with a falsy value is a no-op for every command
name except the two device edge flags, into which it unconditionally stores
the written value (clearing `cmd_trigger` / `cmd_pour_request` when the
value is false) while leaving every other field unchanged. -/
theorem claim_C5 :
    (∀ (δ : Type) (ops : MachineOps δ) (name : String) (m : BaseMachine δ),
      BaseMachine.set_command ops name false m = m) ∧
      (∀ (name : String) (m : BaseMachine SimpleDev),
        name ≠ "trigger" → name ≠ "pour_request" →
        SimpleMachine.set_command name false m = m) ∧
      (∀ m : BaseMachine SimpleDev, SimpleMachine.set_command "trigger" false m =
        { m with dev.cmd_trigger := false }) ∧
      (∀ m : BaseMachine SimpleDev,
        SimpleMachine.set_command "pour_request" false m =
        { m with dev.cmd_pour_request := false }) := by
  have hbase : ∀ (δ : Type) (ops : MachineOps δ) (name : String)
      (m : BaseMachine δ), BaseMachine.set_command ops name false m = m := by
    intro δ ops name m
    unfold BaseMachine.set_command
    rw [if_pos (by simp)]
  refine ⟨hbase, ?_, ?_, ?_⟩
  · intro name m h1 h2
    unfold SimpleMachine.set_command
    rw [hbase, if_neg h1, if_neg h2]
  · intro m
    unfold SimpleMachine.set_command
    rw [hbase, if_pos rfl]
  · intro m
    unfold SimpleMachine.set_command
    rw [hbase, if_neg (by decide), if_pos rfl]

/-- C5, witness: a falsy "stop" write is a complete no-op on a concrete
machine, and a falsy "trigger" write clears only the trigger flag. -/
theorem claim_C5_witness :
    BaseMachine.set_command thermalOps "stop" false c4t = c4t ∧
      SimpleMachine.set_command "stop" false c5m = c5m ∧
      SimpleMachine.set_command "trigger" false c5m =
        { c5m with dev.cmd_trigger := false } := by
  exact ⟨claim_C5.1 ThermalDev thermalOps "stop" c4t,
    claim_C5.2.1 "stop" c5m (by decide) (by decide),
    claim_C5.2.2.1 c5m⟩

theorem furnaceStep_T_min_le (dt hp : ℚ) (s : FurnaceState) :
    furnace_T_min ≤ (furnaceStep dt hp s).T_current :=
  le_max_left _ _

theorem furnaceStep_T_le_max (dt hp : ℚ) (s : FurnaceState) :
    (furnaceStep dt hp s).T_current ≤ furnace_T_max := by
  apply max_le
  · norm_num [furnace_T_min, furnace_T_max]
  · exact min_le_left _ _

/-- C7.  For every furnace state and step: (i) the post-step temperature is
clamped into `[T_min, T_max]`; (ii) the stored instantaneous rate never
exceeds the configured ramp limit in magnitude; (iii) heating at 100% power
strictly increases the temperature whenever it has not yet reached `T_max`
(so from ambient the temperature strictly increases step after step for the
whole heating run until the clamp at `T_max`). -/
theorem claim_C7 (s : FurnaceState) (dt hp : ℚ) :
    (furnace_T_min ≤ (furnaceStep dt hp s).T_current ∧
      (furnaceStep dt hp s).T_current ≤ furnace_T_max) ∧
      |(furnaceStep dt hp s).heating_rate| ≤ furnace_max_ramp_rate ∧
      (hp = 100 → furnace_T_min ≤ s.T_current →
        s.T_current < furnace_T_max → 0 < dt →
        s.T_current < (furnaceStep dt hp s).T_current) := by
  refine ⟨⟨furnaceStep_T_min_le dt hp s, furnaceStep_T_le_max dt hp s⟩, ?_, ?_⟩
  · rw [abs_le]
    constructor
    · exact le_max_left _ _
    · exact max_le (by norm_num [furnace_max_ramp_rate]) (min_le_left _ _)
  · intro hhp h20 hmax hdt
    subst hhp
    show s.T_current < max furnace_T_min (min furnace_T_max (s.T_current +
      max (-furnace_max_ramp_rate) (min furnace_max_ramp_rate
        ((max 0 (min 100 100) / 100 * furnace_P_max -
          furnace_k_loss * (s.T_current - furnace_T_ambient)) /
            furnace_C_thermal)) * dt))
    rw [show furnace_T_min = 20 from rfl, furnace_P_max, furnace_k_loss,
      furnace_T_ambient, furnace_C_thermal, furnace_max_ramp_rate] at *
    rw [show furnace_T_max = 900 from rfl] at *
    set T := s.T_current with hT
    have hq : (max 0 (min 100 (100 : ℚ)) / 100 * 1500000 -
        80 * (T - 20)) / 50000 = 30 - (T - 20) * 8 / 5000 := by
      rw [show max 0 (min 100 (100 : ℚ)) = 100 by norm_num]
      ring
    rw [hq]
    have hd1 : (30 : ℚ) - (T - 20) * 8 / 5000 ≤ 50 := by nlinarith
    have hd2 : (0 : ℚ) < 30 - (T - 20) * 8 / 5000 := by nlinarith
    rw [min_eq_right hd1,
      max_eq_right (show (-50 : ℚ) ≤ 30 - (T - 20) * 8 / 5000 by nlinarith)]
    rcases le_or_lt (T + (30 - (T - 20) * 8 / 5000) * dt) 900 with hle | hgt
    · rw [min_eq_right hle]
      have : T < T + (30 - (T - 20) * 8 / 5000) * dt := by nlinarith
      exact lt_of_lt_of_le this (le_max_right _ _)
    · rw [min_eq_left hgt.le]
      exact lt_of_lt_of_le hmax (le_max_right _ _)

/-- C7, witness: one 0.2 s step at 100% power from the cold-start state
strictly heats the furnace. -/
theorem claim_C7_witness :
    furnaceInit.T_current < (furnaceStep (2 / 10) 100 furnaceInit).T_current :=
  (claim_C7 furnaceInit (2 / 10) 100).2.2 rfl
    (by norm_num [furnaceInit, furnace_T_min, furnace_T_ambient])
    (by norm_num [furnaceInit, furnace_T_max, furnace_T_ambient])
    (by norm_num)


/-- C10 (implicit).  The over-temperature fault (code 201) of
`ThermalMachine` is unreachable via `tick`: the tick steps the physics
first, the physics clamps the temperature to at most `T_max = 900 °C`, and
`_detect_fault` only fires above 1200 °C — so a RUNNING thermal machine
stays RUNNING through any tick (the running logic never touches the FSM
state). -/
theorem claim_C10 (m : BaseMachine ThermalDev) (dt : ℚ)
    (hrun : m.state = MachineState.RUNNING) :
    (ThermalMachine.tick dt m).state = MachineState.RUNNING := by
  obtain ⟨st, en, fc, pc, d⟩ := m
  simp only at hrun
  subst hrun
  have hle := furnaceStep_T_le_max dt d.heater_power d.phys
  rw [show furnace_T_max = 900 from rfl] at hle
  have hnd : ¬((furnaceStep dt d.heater_power d.phys).T_current > 1200) :=
    not_lt.mpr (hle.trans (by norm_num))
  simp [ThermalMachine.tick, BaseMachine.tick, thermalOps, hnd]

/-- C10, witness: one tick of the running furnace stays RUNNING. -/
theorem claim_C10_witness :
    (ThermalMachine.tick (2 / 10) c10m).state = MachineState.RUNNING :=
  claim_C10 c10m (2 / 10) rfl
